import Mathlib

/-!
# Shop simulation: the single-day transition of `src/shop_sim.cpp`

A shallow embedding of the day-step engine (`Offer`, `ModelState`, `Config`,
`calc_demand`, `initialize`, `simulate_day`) and proofs of its contracts.

Modelling conventions.
* `int` is modelled as `Int`. Signed overflow is undefined behaviour in C++, so
  the embedding describes the runs in which no `int` operation overflows.
* `double` is modelled as `ℚ`: arithmetic is exact, the decimal literals of the
  source (`0.9`, `0.6`, `0.4`, `0.5`, ...) stand for the decimal fractions they
  denote, and there are no infinities or NaN. Division by a zero `base_price`
  is therefore outside the model (Lean returns 0 for it).
* The one place where rounding decides a contract is the credit draw: it is given a
  second time in binary64 (`credit_step_f64`, with `round_f64` rounding each stored
  result to nearest, ties to even), to evaluate the bound `credit_used ≤ credit_limit`.
* A mutating function `void f(State&)` becomes a function `State → State`;
  `simulate_day` returns the new state together with its `DayResult`.
-/

namespace ShopSim

/-! ## Data model -/

/-- The `struct Offer` of the source (lines 10-31). -/
structure Offer where
  volume : Int
  price_per_unit : ℚ
  stages : List ℚ
  paid_stage_index : Int
deriving DecidableEq

/-- The value-initialised `Offer()`: the default member initialisers. -/
def Offer.new : Offer :=
  { volume := 0, price_per_unit := 0, stages := [], paid_stage_index := 0 }

/-- The read `stages[i]` of a `std::vector<double>` at an `int` index. An index
outside `0 .. size-1` is undefined behaviour in C++; the model returns 0 there. -/
def vec_at (xs : List ℚ) (i : Int) : ℚ :=
  if 0 ≤ i then xs.getD i.toNat 0 else 0

/-- The function `Offer::create` (lines 16-21). -/
def Offer.create (o : Offer) (v : Int) (p : ℚ) (s : List ℚ) : Offer :=
  { o with volume := v, price_per_unit := p, stages := s, paid_stage_index := 0 }

/-- The function `Offer::next_payment_amount` (lines 23-26). -/
def Offer.next_payment_amount (o : Offer) : ℚ :=
  if o.paid_stage_index ≥ (o.stages.length : Int) then 0
  else (o.volume : ℚ) * o.price_per_unit * vec_at o.stages o.paid_stage_index

/-- The function `Offer::advance_stage` (line 28). -/
def Offer.advance_stage (o : Offer) : Offer :=
  if o.paid_stage_index < (o.stages.length : Int) then
    { o with paid_stage_index := o.paid_stage_index + 1 }
  else o

/-- The function `Offer::is_completed` (line 30). -/
def Offer.is_completed (o : Offer) : Bool :=
  decide (o.paid_stage_index ≥ (o.stages.length : Int))

/-- The `struct ModelState` of the source (lines 33-47). -/
structure ModelState where
  day : Int
  base_stock : Int
  truck_intransit : Int
  store_stock : Int
  bank_account : ℚ
  credit_used : ℚ
  tax_accrued_base : ℚ
  total_tax_paid : ℚ
  sales_skill : ℚ
  sales_motivation : ℚ
  offer : Offer
  total_revenue : ℚ
  total_expenses : ℚ
deriving DecidableEq

/-- The `struct Config` of the source with its default values (lines 49-59). -/
structure Config where
  base_price : ℚ := 100
  base_offer_price : ℚ := 80
  initial_balance : ℚ := 10000
  initial_base_stock : Int := 500
  initial_store_stock : Int := 50
  credit_limit : ℚ := 5000
  credit_rate_monthly : ℚ := 2 / 100
  tax_rate : ℚ := 18 / 100
  days : Int := 90
deriving DecidableEq

/-- The `struct DayResult` of the source (lines 88-101). -/
structure DayResult where
  day : Int
  bank_account : ℚ
  credit_used : ℚ
  base_stock : Int
  truck_intransit : Int
  store_stock : Int
  offer_volume : Int
  offer_paid_stage : Int
  tax_accrued_base : ℚ
  total_tax_paid : ℚ
  daily_sales_qty : Int
  daily_revenue : ℚ
deriving DecidableEq

/-! ## Arithmetic helpers of the C++ library -/

/-- The function `std::round` followed by `static_cast<int>`: the nearest
integer, halves rounded away from zero. -/
def cpp_round (x : ℚ) : Int :=
  if 0 ≤ x then ⌊x + 1 / 2⌋ else ⌈x - 1 / 2⌉

/-- The test `day % 30 == 0` on an `int` (C++ `%` truncates towards zero). -/
def is_day30 (day : Int) : Bool :=
  decide (Int.tmod day 30 = 0)

/-! ## Operations -/

/-- The function `calc_demand` (lines 61-68). -/
def calc_demand (base_demand selling_price : ℚ) (cfg : Config) (skill motiv : ℚ) : ℚ :=
  let price_factor := 1 - (selling_price - cfg.base_price) / cfg.base_price
  let price_factor := if price_factor < 0 then 0 else price_factor
  let staff_factor := 6 / 10 + 4 / 10 * ((skill + motiv) / 2)
  let demand := base_demand * price_factor * staff_factor
  if demand < 0 then 0 else demand

/-- The function `initialize` (lines 70-86); the name is reserved in Lean. -/
def initialise (cfg : Config) : ModelState :=
  { day := 0
    base_stock := cfg.initial_base_stock
    truck_intransit := 0
    store_stock := cfg.initial_store_stock
    bank_account := cfg.initial_balance
    credit_used := 0
    tax_accrued_base := 0
    total_tax_paid := 0
    sales_skill := 8 / 10
    sales_motivation := 8 / 10
    offer := Offer.new
    total_revenue := 0
    total_expenses := 0 }

/-- Line 107 and block 1 of `simulate_day` (lines 109-112): the day counter is
incremented and `load = min(transfer_volume, base_stock)` units go on the truck. -/
def load_step (s : ModelState) (transfer_volume : Int) : ModelState :=
  let s := { s with day := s.day + 1 }
  let load := min transfer_volume s.base_stock
  let s := { s with base_stock := s.base_stock - load }
  { s with truck_intransit := s.truck_intransit + load }

/-- The number `static_cast<int>(std::floor(truck_intransit * 0.9))` (line 115). -/
def delivered_of (truck_intransit : Int) : Int :=
  ⌊(truck_intransit : ℚ) * (9 / 10)⌋

/-- Block 2 of `simulate_day` (lines 114-117): delivery to the store. -/
def deliver_step (s : ModelState) : ModelState :=
  let delivered := delivered_of s.truck_intransit
  let s := { s with truck_intransit := s.truck_intransit - delivered }
  { s with store_stock := s.store_stock + delivered }

/-- Block 3 of `simulate_day` (lines 119-129): purchase of a wholesale batch. -/
def buy_step (s : ModelState) (cfg : Config) (buy_offer : Bool) : ModelState :=
  if buy_offer then
    let offer_volume : Int := 100
    let offer_price := cfg.base_offer_price
    let stages : List ℚ := [1 / 2, 1 / 2]
    let s := { s with offer := s.offer.create offer_volume offer_price stages }
    let pay := s.offer.next_payment_amount
    let s := { s with bank_account := s.bank_account - pay }
    let s := { s with total_expenses := s.total_expenses + pay }
    { s with offer := s.offer.advance_stage }
  else s

/-- The local `sales_qty` of block 4 (lines 132-134), on the state before sales. -/
def sales_qty_of (s : ModelState) (cfg : Config) (selling_price base_daily_demand : ℚ) : Int :=
  let demand_d := calc_demand base_daily_demand selling_price cfg s.sales_skill s.sales_motivation
  let sales_qty := cpp_round demand_d
  min sales_qty s.store_stock

/-- The local `revenue` of block 4 (line 135), on the state before sales. -/
def revenue_of (s : ModelState) (cfg : Config) (selling_price base_daily_demand : ℚ) : ℚ :=
  (sales_qty_of s cfg selling_price base_daily_demand : ℚ) * selling_price

/-- Block 4 of `simulate_day` (lines 131-138): sales. -/
def sales_step (s : ModelState) (cfg : Config) (selling_price base_daily_demand : ℚ) :
    ModelState :=
  let sales_qty := sales_qty_of s cfg selling_price base_daily_demand
  let revenue := revenue_of s cfg selling_price base_daily_demand
  let s := { s with store_stock := s.store_stock - sales_qty }
  let s := { s with bank_account := s.bank_account + revenue }
  { s with total_revenue := s.total_revenue + revenue }

/-- Block 5 of `simulate_day` (lines 140-146): staged-offer service. -/
def service_step (s : ModelState) : ModelState :=
  if !s.offer.is_completed && is_day30 s.day then
    let pay := s.offer.next_payment_amount
    let s := { s with bank_account := s.bank_account - pay }
    let s := { s with total_expenses := s.total_expenses + pay }
    { s with offer := s.offer.advance_stage }
  else s

/-- Block 6 of `simulate_day` (lines 148-158): tax accrual and settlement. -/
def tax_step (s : ModelState) (cfg : Config) (revenue : ℚ) : ModelState :=
  let daily_profit := revenue
  let s := if daily_profit > 0 then
      { s with tax_accrued_base := s.tax_accrued_base + daily_profit } else s
  if is_day30 s.day then
    let tax := s.tax_accrued_base * cfg.tax_rate
    let s := { s with tax_accrued_base := 0 }
    let s := { s with bank_account := s.bank_account - tax }
    let s := { s with total_tax_paid := s.total_tax_paid + tax }
    { s with total_expenses := s.total_expenses + tax }
  else s

/-- Block 7 of `simulate_day`, first half (lines 160-167): the credit draw. -/
def credit_step (s : ModelState) (cfg : Config) : ModelState :=
  if s.bank_account < 0 then
    let need := -s.bank_account
    let available := max 0 (cfg.credit_limit - s.credit_used)
    let used := min need available
    let s := { s with credit_used := s.credit_used + used }
    { s with bank_account := s.bank_account + used }
  else s

/-- Block 7 of `simulate_day`, second half (lines 169-174): credit interest. -/
def interest_step (s : ModelState) (cfg : Config) : ModelState :=
  if is_day30 s.day && decide (s.credit_used > 0) then
    let interest := s.credit_used * cfg.credit_rate_monthly
    let s := { s with bank_account := s.bank_account - interest }
    { s with total_expenses := s.total_expenses + interest }
  else s

/-- The state of `simulate_day` when control reaches block 4 (line 131). -/
def before_sales (s : ModelState) (cfg : Config) (transfer_volume : Int) (buy_offer : Bool) :
    ModelState :=
  buy_step (deliver_step (load_step s transfer_volume)) cfg buy_offer

/-- The state of `simulate_day` when control reaches the credit draw (line 160). -/
def before_credit (s : ModelState) (cfg : Config) (transfer_volume : Int) (buy_offer : Bool)
    (selling_price base_daily_demand : ℚ) : ModelState :=
  let s3 := before_sales s cfg transfer_volume buy_offer
  let revenue := revenue_of s3 cfg selling_price base_daily_demand
  tax_step (service_step (sales_step s3 cfg selling_price base_daily_demand)) cfg revenue

/-- The snapshot built at the end of `simulate_day` (lines 176-189). -/
def mk_result (s : ModelState) (sales_qty : Int) (revenue : ℚ) : DayResult :=
  { day := s.day
    bank_account := s.bank_account
    credit_used := s.credit_used
    base_stock := s.base_stock
    truck_intransit := s.truck_intransit
    store_stock := s.store_stock
    offer_volume := s.offer.volume
    offer_paid_stage := s.offer.paid_stage_index
    tax_accrued_base := s.tax_accrued_base
    total_tax_paid := s.total_tax_paid
    daily_sales_qty := sales_qty
    daily_revenue := revenue }

/-- The function `simulate_day` (lines 103-190): the new state and the returned `DayResult`.
The source's default argument is `base_daily_demand = 20.0`. -/
def simulate_day (s : ModelState) (cfg : Config) (transfer_volume : Int) (buy_offer : Bool)
    (selling_price : ℚ) (base_daily_demand : ℚ) : ModelState × DayResult :=
  let s3 := before_sales s cfg transfer_volume buy_offer
  let sales_qty := sales_qty_of s3 cfg selling_price base_daily_demand
  let revenue := revenue_of s3 cfg selling_price base_daily_demand
  let s6 := before_credit s cfg transfer_volume buy_offer selling_price base_daily_demand
  let s7 := interest_step (credit_step s6 cfg) cfg
  (s7, mk_result s7 sales_qty revenue)

/-- One day's decisions as supplied by a driver: `(transfer_volume, buy_offer,
selling_price)`, the tuple type of `run_demo` (line 207). -/
structure DayInput where
  transfer_volume : Int
  buy_offer : Bool
  selling_price : ℚ

/-- The driver loop (lines 219-223, 254-282): `simulate_day` with the default base
demand 20 on each input in turn, keeping the state. -/
def run_days (cfg : Config) (s : ModelState) : List DayInput → ModelState
  | [] => s
  | i :: rest =>
    run_days cfg (simulate_day s cfg i.transfer_volume i.buy_offer i.selling_price 20).1 rest

/-- A decision used in examples: buy a batch, move nothing, sell at price 100. -/
def buy_day : DayInput := { transfer_volume := 0, buy_offer := true, selling_price := 100 }

/-- A decision used in examples: no purchase, move nothing, sell at price 100. -/
def idle_day : DayInput := { transfer_volume := 0, buy_offer := false, selling_price := 100 }

/-- The state of the default configuration at the end of day 30, after a batch was
bought on day 1 and nothing else was decided: the offer is fully paid. -/
def state_day30_paid : ModelState :=
  run_days {} (initialise {}) (buy_day :: (List.replicate 28 idle_day ++ [idle_day]))

/-- The state of the default configuration after 29 idle days. -/
def state_day29 : ModelState :=
  run_days {} (initialise {}) (List.replicate 29 idle_day)

/-- A state on day 0 with balance -200, 4900 of credit drawn and no stock (so that the
next day has no sales): the credit-draw scenario of the specification. -/
def credit_case_state : ModelState :=
  { initialise {} with
    bank_account := -200, credit_used := 4900, base_stock := 0, store_stock := 0 }

/-- A state on day 29 with an accrued tax base of 5000 and no stock (so that day 30
has no revenue): the tax-settlement scenario of the specification. -/
def tax_case_state : ModelState :=
  { initialise {} with
    day := 29, tax_accrued_base := 5000, base_stock := 0, store_stock := 0 }

/-- A state on day 29 with balance 500, 1000 of credit drawn, no stock, no offer and a
zero tax base: the credit-interest scenario. -/
def interest_case_state : ModelState :=
  { initialise {} with
    day := 29, bank_account := 500, credit_used := 1000, base_stock := 0, store_stock := 0 }

/-- The state of the default configuration at the end of day 29, after a batch was
bought on day 1 and nothing else was decided: one installment is still owed. -/
def state_day29_owing : ModelState :=
  run_days {} (initialise {}) (buy_day :: List.replicate 28 idle_day)

/-- A state of the default configuration with one unit left on the truck and nothing
else in the warehouse. -/
def one_in_transit_state : ModelState :=
  { initialise {} with base_stock := 0, truck_intransit := 1 }

/-- States reachable from `initialise cfg` by `simulate_day` calls whose inputs satisfy
`transfer_volume ≥ 0` and `selling_price ≥ 0`, the contract of the engine's inputs. -/
inductive ReachableNonneg (cfg : Config) : ModelState → Prop
  | init : ReachableNonneg cfg (initialise cfg)
  | step {s : ModelState} (transfer_volume : Int) (buy_offer : Bool)
      (selling_price base_daily_demand : ℚ) :
      0 ≤ transfer_volume → 0 ≤ selling_price →
      ReachableNonneg cfg s →
      ReachableNonneg cfg (simulate_day s cfg transfer_volume buy_offer selling_price
        base_daily_demand).1

/-- An offer whose volume, unit price and payment fractions are all non-negative, as is
every offer the engine creates from a non-negative `base_offer_price`. -/
def Offer.nonneg (o : Offer) : Prop :=
  0 ≤ o.volume ∧ 0 ≤ o.price_per_unit ∧ ∀ x ∈ o.stages, 0 ≤ x

/-- Rounding of a rational to the nearest integer, ties to the even neighbour: the
rounding rule of IEEE 754 binary64 applied to a scaled significand. -/
def round_half_even (y : ℚ) : Int :=
  if y - ⌊y⌋ < 1 / 2 then ⌊y⌋
  else if 1 / 2 < y - ⌊y⌋ then ⌊y⌋ + 1
  else if ⌊y⌋ % 2 = 0 then ⌊y⌋ else ⌊y⌋ + 1

/-- The binary64 value that a `double` operation stores for the exact result `x`: `x`
rounded to 53 significant bits, to nearest, ties to even. The exponent range is taken as
unbounded (no overflow to infinity, no subnormals). -/
def round_f64 (x : ℚ) : ℚ :=
  if x = 0 then 0
  else (round_half_even (x / 2 ^ (Int.log 2 |x| - 52)) : ℚ) * 2 ^ (Int.log 2 |x| - 52)

/-- The credit draw (lines 160-167) in binary64: every `double` subtraction and addition
of the block stores the rounded result. The fields of the state and of the configuration
are taken to hold binary64 values; negation, `max` and `min` are exact on them. -/
def credit_step_f64 (s : ModelState) (cfg : Config) : ModelState :=
  if s.bank_account < 0 then
    let need := -s.bank_account
    let available := max 0 (round_f64 (cfg.credit_limit - s.credit_used))
    let used := min need available
    let s := { s with credit_used := round_f64 (s.credit_used + used) }
    { s with bank_account := round_f64 (s.bank_account + used) }
  else s

/-- A configuration written as `credit_limit = 0.3`, `initial_balance = -0.03` and no
stock, the other fields at their defaults. The two fields hold the binary64 values of
these literals: `5404319552844595 / 2^54` and `-1080863910568919 / 2^55`. -/
def cfg_small_limit : Config :=
  { credit_limit := 5404319552844595 / 2 ^ 54
    initial_balance := -(1080863910568919 / 2 ^ 55)
    initial_base_stock := 0
    initial_store_stock := 0 }

/-- The state of `cfg_small_limit` after day 1 with inputs `(0, false, 100)`: the
shortfall of 0.03 has been drawn from the credit line. -/
def small_limit_day1 : ModelState :=
  (simulate_day (initialise cfg_small_limit) cfg_small_limit 0 false 100 20).1

/-- The state in which day 2 with inputs `(0, true, 100)` reaches the credit draw
(line 160): the purchase has taken 4000 from a balance of 0. -/
def small_limit_day2_at_draw : ModelState :=
  before_credit small_limit_day1 cfg_small_limit 0 true 100 20

/-- States reachable from `initialise cfg` by `simulate_day` calls with that
configuration and arbitrary inputs. -/
inductive Reachable (cfg : Config) : ModelState → Prop
  | init : Reachable cfg (initialise cfg)
  | step {s : ModelState} (transfer_volume : Int) (buy_offer : Bool)
      (selling_price base_daily_demand : ℚ) :
      Reachable cfg s →
      Reachable cfg (simulate_day s cfg transfer_volume buy_offer selling_price
        base_daily_demand).1

/-! ## Facts about the arithmetic helpers -/

/-- The truncating `%` of C++ and the Euclidean `%` of Lean agree on `day % 30 == 0`. -/
theorem is_day30_eq (day : Int) : is_day30 day = decide (day % 30 = 0) := by
  unfold is_day30
  congr 1
  apply propext
  constructor
  · intro h
    exact Int.emod_eq_zero_of_dvd (Int.dvd_of_tmod_eq_zero h)
  · intro h
    exact Int.tmod_eq_zero_of_dvd (Int.dvd_of_emod_eq_zero h)

theorem is_day30_true_iff (day : Int) : is_day30 day = true ↔ Int.tmod day 30 = 0 := by
  simp [is_day30]

theorem is_day30_false_iff (day : Int) : is_day30 day = false ↔ Int.tmod day 30 ≠ 0 := by
  simp [is_day30]

/-! ## Frame lemmas: which fields each block touches -/

theorem load_step_day (s : ModelState) (tv : Int) :
    (load_step s tv).day = s.day + 1 := rfl

theorem load_step_base_stock (s : ModelState) (tv : Int) :
    (load_step s tv).base_stock = s.base_stock - min tv s.base_stock := rfl

theorem load_step_truck (s : ModelState) (tv : Int) :
    (load_step s tv).truck_intransit = s.truck_intransit + min tv s.base_stock := rfl

theorem load_step_store (s : ModelState) (tv : Int) :
    (load_step s tv).store_stock = s.store_stock := rfl

theorem deliver_step_day (s : ModelState) : (deliver_step s).day = s.day := rfl

theorem deliver_step_base_stock (s : ModelState) :
    (deliver_step s).base_stock = s.base_stock := rfl

theorem deliver_step_truck (s : ModelState) :
    (deliver_step s).truck_intransit = s.truck_intransit - delivered_of s.truck_intransit := rfl

theorem deliver_step_store (s : ModelState) :
    (deliver_step s).store_stock = s.store_stock + delivered_of s.truck_intransit := rfl

theorem buy_step_stocks (s : ModelState) (cfg : Config) (b : Bool) :
    (buy_step s cfg b).day = s.day ∧ (buy_step s cfg b).base_stock = s.base_stock ∧
    (buy_step s cfg b).truck_intransit = s.truck_intransit ∧
    (buy_step s cfg b).store_stock = s.store_stock := by
  unfold buy_step
  cases b <;> simp

theorem sales_step_stocks (s : ModelState) (cfg : Config) (sp bd : ℚ) :
    (sales_step s cfg sp bd).day = s.day ∧ (sales_step s cfg sp bd).base_stock = s.base_stock ∧
    (sales_step s cfg sp bd).truck_intransit = s.truck_intransit ∧
    (sales_step s cfg sp bd).store_stock = s.store_stock - sales_qty_of s cfg sp bd :=
  ⟨rfl, rfl, rfl, rfl⟩

theorem service_step_stocks (s : ModelState) :
    (service_step s).day = s.day ∧ (service_step s).base_stock = s.base_stock ∧
    (service_step s).truck_intransit = s.truck_intransit ∧
    (service_step s).store_stock = s.store_stock := by
  unfold service_step
  split_ifs <;> simp

theorem tax_step_stocks (s : ModelState) (cfg : Config) (r : ℚ) :
    (tax_step s cfg r).day = s.day ∧ (tax_step s cfg r).base_stock = s.base_stock ∧
    (tax_step s cfg r).truck_intransit = s.truck_intransit ∧
    (tax_step s cfg r).store_stock = s.store_stock := by
  unfold tax_step
  by_cases hr : r > 0 <;> by_cases hd : is_day30 s.day = true <;> simp [hr, hd]

theorem credit_step_stocks (s : ModelState) (cfg : Config) :
    (credit_step s cfg).day = s.day ∧ (credit_step s cfg).base_stock = s.base_stock ∧
    (credit_step s cfg).truck_intransit = s.truck_intransit ∧
    (credit_step s cfg).store_stock = s.store_stock := by
  unfold credit_step
  split_ifs <;> simp

theorem interest_step_stocks (s : ModelState) (cfg : Config) :
    (interest_step s cfg).day = s.day ∧ (interest_step s cfg).base_stock = s.base_stock ∧
    (interest_step s cfg).truck_intransit = s.truck_intransit ∧
    (interest_step s cfg).store_stock = s.store_stock := by
  unfold interest_step
  split_ifs <;> simp

/-- The day counter and the three stock counts when control reaches block 4. -/
theorem before_sales_stocks (s : ModelState) (cfg : Config) (tv : Int) (b : Bool) :
    (before_sales s cfg tv b).day = s.day + 1 ∧
    (before_sales s cfg tv b).base_stock = s.base_stock - min tv s.base_stock ∧
    (before_sales s cfg tv b).truck_intransit =
      s.truck_intransit + min tv s.base_stock
        - delivered_of (s.truck_intransit + min tv s.base_stock) ∧
    (before_sales s cfg tv b).store_stock =
      s.store_stock + delivered_of (s.truck_intransit + min tv s.base_stock) := by
  obtain ⟨h1, h2, h3, h4⟩ := buy_step_stocks (deliver_step (load_step s tv)) cfg b
  unfold before_sales
  rw [h1, h2, h3, h4]
  exact ⟨rfl, rfl, rfl, rfl⟩

/-- The day counter and the three stock counts after a whole `simulate_day`. -/
theorem simulate_day_stocks (s : ModelState) (cfg : Config) (tv : Int) (b : Bool) (sp bd : ℚ) :
    (simulate_day s cfg tv b sp bd).1.day = s.day + 1 ∧
    (simulate_day s cfg tv b sp bd).1.base_stock = (before_sales s cfg tv b).base_stock ∧
    (simulate_day s cfg tv b sp bd).1.truck_intransit =
      (before_sales s cfg tv b).truck_intransit ∧
    (simulate_day s cfg tv b sp bd).1.store_stock =
      (before_sales s cfg tv b).store_stock - sales_qty_of (before_sales s cfg tv b) cfg sp bd := by
  simp only [simulate_day, before_credit]
  obtain ⟨i1, i2, i3, i4⟩ := interest_step_stocks (credit_step (tax_step (service_step
    (sales_step (before_sales s cfg tv b) cfg sp bd)) cfg
    (revenue_of (before_sales s cfg tv b) cfg sp bd)) cfg) cfg
  obtain ⟨c1, c2, c3, c4⟩ := credit_step_stocks (tax_step (service_step
    (sales_step (before_sales s cfg tv b) cfg sp bd)) cfg
    (revenue_of (before_sales s cfg tv b) cfg sp bd)) cfg
  obtain ⟨t1, t2, t3, t4⟩ := tax_step_stocks (service_step
    (sales_step (before_sales s cfg tv b) cfg sp bd)) cfg
    (revenue_of (before_sales s cfg tv b) cfg sp bd)
  obtain ⟨v1, v2, v3, v4⟩ := service_step_stocks (sales_step (before_sales s cfg tv b) cfg sp bd)
  obtain ⟨a1, a2, a3, a4⟩ := sales_step_stocks (before_sales s cfg tv b) cfg sp bd
  rw [i1, i2, i3, i4, c1, c2, c3, c4, t1, t2, t3, t4, v1, v2, v3, v4, a1, a2, a3, a4]
  exact ⟨(before_sales_stocks s cfg tv b).1, rfl, rfl, rfl⟩

/-! ## Claims -/

/-- C1: `simulate_day` conserves units. The three stock counts after the call plus
the returned `daily_sales_qty` equal the three stock counts before the call, for every
state and input; and the load and delivery blocks alone leave the sum of the three
stock counts unchanged. -/
theorem simulate_day_conserves_units (s : ModelState) (cfg : Config) (transfer_volume : Int)
    (buy_offer : Bool) (selling_price base_daily_demand : ℚ) :
    ((simulate_day s cfg transfer_volume buy_offer selling_price base_daily_demand).1.base_stock
      + (simulate_day s cfg transfer_volume buy_offer selling_price
          base_daily_demand).1.truck_intransit
      + (simulate_day s cfg transfer_volume buy_offer selling_price base_daily_demand).1.store_stock
      + (simulate_day s cfg transfer_volume buy_offer selling_price
          base_daily_demand).2.daily_sales_qty
      = s.base_stock + s.truck_intransit + s.store_stock) ∧
    ((deliver_step (load_step s transfer_volume)).base_stock
      + (deliver_step (load_step s transfer_volume)).truck_intransit
      + (deliver_step (load_step s transfer_volume)).store_stock
      = s.base_stock + s.truck_intransit + s.store_stock) := by
  constructor
  · obtain ⟨_, h2, h3, h4⟩ := simulate_day_stocks s cfg transfer_volume buy_offer
      selling_price base_daily_demand
    obtain ⟨_, b2, b3, b4⟩ := before_sales_stocks s cfg transfer_volume buy_offer
    have hq : (simulate_day s cfg transfer_volume buy_offer selling_price
        base_daily_demand).2.daily_sales_qty
        = sales_qty_of (before_sales s cfg transfer_volume buy_offer) cfg selling_price
            base_daily_demand := rfl
    rw [h2, h3, h4, hq, b2, b3, b4]
    omega
  · rw [deliver_step_base_stock, deliver_step_truck, deliver_step_store, load_step_base_stock,
      load_step_truck, load_step_store]
    omega

/-- The credit draw keeps `credit_used` inside `[0, credit_limit]`. -/
theorem credit_step_credit_bounds (s : ModelState) (cfg : Config)
    (h0 : 0 ≤ s.credit_used) (hL : s.credit_used ≤ cfg.credit_limit) :
    0 ≤ (credit_step s cfg).credit_used ∧ (credit_step s cfg).credit_used ≤ cfg.credit_limit := by
  unfold credit_step
  split_ifs with hb
  · have hneed : 0 ≤ -s.bank_account := by linarith
    have hav : max 0 (cfg.credit_limit - s.credit_used) = cfg.credit_limit - s.credit_used :=
      max_eq_right (by linarith)
    simp only [hav]
    constructor
    · have : 0 ≤ min (-s.bank_account) (cfg.credit_limit - s.credit_used) :=
        le_min hneed (by linarith)
      linarith
    · have : min (-s.bank_account) (cfg.credit_limit - s.credit_used)
          ≤ cfg.credit_limit - s.credit_used := min_le_right _ _
      linarith
  · exact ⟨h0, hL⟩

theorem buy_step_credit_used (s : ModelState) (cfg : Config) (b : Bool) :
    (buy_step s cfg b).credit_used = s.credit_used := by
  unfold buy_step
  cases b <;> simp

theorem service_step_credit_used (s : ModelState) :
    (service_step s).credit_used = s.credit_used := by
  unfold service_step
  split_ifs <;> simp

theorem tax_step_credit_used (s : ModelState) (cfg : Config) (r : ℚ) :
    (tax_step s cfg r).credit_used = s.credit_used := by
  unfold tax_step
  by_cases hr : r > 0 <;> by_cases hd : is_day30 s.day = true <;> simp [hr, hd]

theorem interest_step_credit_used (s : ModelState) (cfg : Config) :
    (interest_step s cfg).credit_used = s.credit_used := by
  unfold interest_step
  split_ifs <;> simp

/-- No block before the credit draw touches `credit_used`. -/
theorem before_credit_credit_used (s : ModelState) (cfg : Config) (tv : Int) (b : Bool)
    (sp bd : ℚ) : (before_credit s cfg tv b sp bd).credit_used = s.credit_used := by
  simp only [before_credit, before_sales]
  rw [tax_step_credit_used, service_step_credit_used]
  show (buy_step (deliver_step (load_step s tv)) cfg b).credit_used = s.credit_used
  rw [buy_step_credit_used]
  rfl

/-- The final `credit_used` is the one left by the credit draw. -/
theorem simulate_day_credit_used (s : ModelState) (cfg : Config) (tv : Int) (b : Bool)
    (sp bd : ℚ) :
    (simulate_day s cfg tv b sp bd).1.credit_used
      = (credit_step (before_credit s cfg tv b sp bd) cfg).credit_used := by
  simp only [simulate_day]
  rw [interest_step_credit_used]

/-- One `simulate_day` call preserves `0 ≤ credit_used ≤ credit_limit`. -/
theorem simulate_day_credit_bounds (s : ModelState) (cfg : Config) (tv : Int) (b : Bool)
    (sp bd : ℚ) (h0 : 0 ≤ s.credit_used) (hL : s.credit_used ≤ cfg.credit_limit) :
    0 ≤ (simulate_day s cfg tv b sp bd).1.credit_used ∧
    (simulate_day s cfg tv b sp bd).1.credit_used ≤ cfg.credit_limit := by
  rw [simulate_day_credit_used]
  apply credit_step_credit_bounds
  · rw [before_credit_credit_used]; exact h0
  · rw [before_credit_credit_used]; exact hL

/-- Every state produced by the driver loop from a reachable state is reachable. -/
theorem reachable_run_days (cfg : Config) (inputs : List DayInput) :
    ∀ s : ModelState, Reachable cfg s → Reachable cfg (run_days cfg s inputs) := by
  induction inputs with
  | nil => intro s hs; exact hs
  | cons i rest ih =>
    intro s hs
    exact ih _ (Reachable.step i.transfer_volume i.buy_offer i.selling_price 20 hs)

/-- In exact arithmetic (the rational model of `double`), for a configuration with
`credit_limit ≥ 0` every state reachable from `initialise cfg` has
`0 ≤ credit_used ≤ credit_limit`, and a single `simulate_day` call with any inputs
preserves it. The upper bound does not survive binary64 rounding, as the evaluation
of `credit_step_f64` further down shows. -/
theorem credit_used_within_limit (cfg : Config) (hlim : 0 ≤ cfg.credit_limit) :
    (∀ s : ModelState, Reachable cfg s →
      0 ≤ s.credit_used ∧ s.credit_used ≤ cfg.credit_limit) ∧
    (∀ (s : ModelState) (transfer_volume : Int) (buy_offer : Bool)
      (selling_price base_daily_demand : ℚ),
      0 ≤ s.credit_used ∧ s.credit_used ≤ cfg.credit_limit →
      0 ≤ (simulate_day s cfg transfer_volume buy_offer selling_price
            base_daily_demand).1.credit_used ∧
      (simulate_day s cfg transfer_volume buy_offer selling_price
            base_daily_demand).1.credit_used ≤ cfg.credit_limit) := by
  constructor
  · intro s hs
    induction hs with
    | init => exact ⟨le_refl _, hlim⟩
    | step tv b sp bd _ ih => exact simulate_day_credit_bounds _ cfg tv b sp bd ih.1 ih.2
  · intro s tv b sp bd h
    exact simulate_day_credit_bounds s cfg tv b sp bd h.1 h.2

/-! ### The offer record through a day -/

theorem buy_step_offer (s : ModelState) (cfg : Config) (b : Bool) :
    (buy_step s cfg b).offer
      = if b then (s.offer.create 100 cfg.base_offer_price [1 / 2, 1 / 2]).advance_stage
        else s.offer := by
  unfold buy_step
  cases b <;> simp

theorem service_step_offer (s : ModelState) :
    (service_step s).offer
      = if !s.offer.is_completed && is_day30 s.day then s.offer.advance_stage else s.offer := by
  unfold service_step
  split_ifs <;> simp

theorem tax_step_offer (s : ModelState) (cfg : Config) (r : ℚ) :
    (tax_step s cfg r).offer = s.offer := by
  unfold tax_step
  by_cases hr : r > 0 <;> by_cases hd : is_day30 s.day = true <;> simp [hr, hd]

theorem credit_step_offer (s : ModelState) (cfg : Config) :
    (credit_step s cfg).offer = s.offer := by
  unfold credit_step
  split_ifs <;> simp

theorem interest_step_offer (s : ModelState) (cfg : Config) :
    (interest_step s cfg).offer = s.offer := by
  unfold interest_step
  split_ifs <;> simp

/-- The offer when control reaches block 4. -/
theorem before_sales_offer (s : ModelState) (cfg : Config) (tv : Int) (b : Bool) :
    (before_sales s cfg tv b).offer
      = if b then (s.offer.create 100 cfg.base_offer_price [1 / 2, 1 / 2]).advance_stage
        else s.offer := by
  unfold before_sales
  rw [buy_step_offer]
  rfl

/-- The offer after a whole `simulate_day`: the purchase (if any) followed by the
staged-offer service of day `s.day + 1`. -/
theorem simulate_day_offer (s : ModelState) (cfg : Config) (tv : Int) (b : Bool) (sp bd : ℚ) :
    (simulate_day s cfg tv b sp bd).1.offer
      = if !(before_sales s cfg tv b).offer.is_completed && is_day30 (s.day + 1)
        then (before_sales s cfg tv b).offer.advance_stage
        else (before_sales s cfg tv b).offer := by
  simp only [simulate_day, before_credit]
  rw [interest_step_offer, credit_step_offer, tax_step_offer, service_step_offer]
  have hd : (sales_step (before_sales s cfg tv b) cfg sp bd).day = s.day + 1 := by
    rw [(sales_step_stocks _ cfg sp bd).1, (before_sales_stocks s cfg tv b).1]
  have ho : (sales_step (before_sales s cfg tv b) cfg sp bd).offer
      = (before_sales s cfg tv b).offer := rfl
  rw [hd, ho]

/-- The offer created by a purchase, after its first stage has been paid. -/
theorem created_offer (o : Offer) (p : ℚ) :
    (o.create 100 p [1 / 2, 1 / 2]).advance_stage
      = { volume := 100, price_per_unit := p, stages := [1 / 2, 1 / 2], paid_stage_index := 1 } := by
  simp [Offer.create, Offer.advance_stage]

/-- The cursor after a day without purchase. -/
theorem simulate_day_index_no_buy (s : ModelState) (cfg : Config) (tv : Int) (sp bd : ℚ) :
    (simulate_day s cfg tv false sp bd).1.offer.paid_stage_index
      = if s.offer.paid_stage_index < (s.offer.stages.length : Int) ∧ is_day30 (s.day + 1) = true
        then s.offer.paid_stage_index + 1 else s.offer.paid_stage_index := by
  rw [simulate_day_offer, before_sales_offer]
  by_cases hc : s.offer.paid_stage_index < (s.offer.stages.length : Int) <;>
    by_cases hd : is_day30 (s.day + 1) = true <;>
    simp [Offer.is_completed, Offer.advance_stage, hc, hd]

/-- The cursor after a day with a purchase: the new offer restarts it. -/
theorem simulate_day_index_buy (s : ModelState) (cfg : Config) (tv : Int) (sp bd : ℚ) :
    (simulate_day s cfg tv true sp bd).1.offer.paid_stage_index
      = if is_day30 (s.day + 1) = true then 2 else 1 := by
  rw [simulate_day_offer, before_sales_offer]
  simp only [if_true, created_offer]
  by_cases hd : is_day30 (s.day + 1) = true <;>
    simp [Offer.is_completed, Offer.advance_stage, hd]

/-- The whole offer after a day without purchase. -/
theorem simulate_day_offer_no_buy (s : ModelState) (cfg : Config) (tv : Int) (sp bd : ℚ) :
    (simulate_day s cfg tv false sp bd).1.offer
      = if s.offer.paid_stage_index < (s.offer.stages.length : Int) ∧ is_day30 (s.day + 1) = true
        then { s.offer with paid_stage_index := s.offer.paid_stage_index + 1 } else s.offer := by
  rw [simulate_day_offer, before_sales_offer]
  by_cases hc : s.offer.paid_stage_index < (s.offer.stages.length : Int) <;>
    by_cases hd : is_day30 (s.day + 1) = true <;>
    simp [Offer.is_completed, Offer.advance_stage, hc, hd]

/-- The whole offer after a day with a purchase. -/
theorem simulate_day_offer_buy (s : ModelState) (cfg : Config) (tv : Int) (sp bd : ℚ) :
    (simulate_day s cfg tv true sp bd).1.offer
      = { volume := 100, price_per_unit := cfg.base_offer_price, stages := [1 / 2, 1 / 2],
          paid_stage_index := if is_day30 (s.day + 1) = true then 2 else 1 } := by
  rw [simulate_day_offer, before_sales_offer]
  simp only [if_true, created_offer]
  by_cases hd : is_day30 (s.day + 1) = true <;>
    simp [Offer.is_completed, Offer.advance_stage, hd]

theorem simulate_day_day (s : ModelState) (cfg : Config) (tv : Int) (b : Bool) (sp bd : ℚ) :
    (simulate_day s cfg tv b sp bd).1.day = s.day + 1 :=
  (simulate_day_stocks s cfg tv b sp bd).1

theorem run_days_nil (cfg : Config) (s : ModelState) : run_days cfg s [] = s := rfl

theorem run_days_cons (cfg : Config) (s : ModelState) (i : DayInput) (rest : List DayInput) :
    run_days cfg s (i :: rest)
      = run_days cfg (simulate_day s cfg i.transfer_volume i.buy_offer i.selling_price 20).1
          rest := rfl

theorem run_days_append (cfg : Config) (xs ys : List DayInput) :
    ∀ s : ModelState, run_days cfg s (xs ++ ys) = run_days cfg (run_days cfg s xs) ys := by
  induction xs with
  | nil => intro s; rfl
  | cons i rest ih => intro s; exact ih _

theorem idle_day_buy_offer : idle_day.buy_offer = false := rfl

theorem buy_day_buy_offer : buy_day.buy_offer = true := rfl

/-- A stretch of idle days that does not reach a multiple of 30 leaves the offer alone. -/
theorem run_days_idle (cfg : Config) :
    ∀ (n : Nat) (s : ModelState), 0 ≤ s.day → s.day % 30 + n < 30 →
      (run_days cfg s (List.replicate n idle_day)).day = s.day + n ∧
      (run_days cfg s (List.replicate n idle_day)).offer = s.offer := by
  intro n
  induction n with
  | zero =>
    intro s _ _
    rw [List.replicate_zero, run_days_nil]
    exact ⟨by simp, rfl⟩
  | succ n ih =>
    intro s h0 hlt
    rw [List.replicate_succ, run_days_cons, idle_day_buy_offer]
    generalize idle_day.transfer_volume = tv
    generalize idle_day.selling_price = sp
    have hd : (simulate_day s cfg tv false sp 20).1.day = s.day + 1 :=
      simulate_day_day _ _ _ _ _ _
    have hnot : is_day30 (s.day + 1) = false := by
      rw [is_day30_eq]
      simp only [decide_eq_false_iff_not]
      omega
    have ho : (simulate_day s cfg tv false sp 20).1.offer = s.offer := by
      rw [simulate_day_offer_no_buy, hnot]
      simp
    obtain ⟨i1, i2⟩ := ih (simulate_day s cfg tv false sp 20).1 (by rw [hd]; omega)
      (by rw [hd]; omega)
    rw [i1, i2, hd, ho]
    exact ⟨by push_cast; ring, rfl⟩

/-- The state `state_day30_paid` is at day 30 with a completed two-stage offer. -/
theorem state_day30_paid_offer :
    state_day30_paid.day = 30 ∧
    state_day30_paid.offer
      = { volume := 100, price_per_unit := 80, stages := [1 / 2, 1 / 2], paid_stage_index := 2 } := by
  unfold state_day30_paid
  rw [run_days_cons, run_days_append, run_days_cons, run_days_nil, idle_day_buy_offer,
    buy_day_buy_offer]
  generalize idle_day.transfer_volume = tv
  generalize idle_day.selling_price = sp
  generalize buy_day.transfer_volume = tv1
  generalize buy_day.selling_price = sp1
  have h0d : (initialise {}).day = 0 := rfl
  have hprice : ({} : Config).base_offer_price = 80 := rfl
  have h1d : (simulate_day (initialise {}) {} tv1 true sp1 20).1.day = 1 := by
    rw [simulate_day_day, h0d]; norm_num
  have h1o : (simulate_day (initialise {}) {} tv1 true sp1 20).1.offer
      = { volume := 100, price_per_unit := 80, stages := [1 / 2, 1 / 2],
          paid_stage_index := 1 } := by
    rw [simulate_day_offer_buy, h0d, hprice]
    simp [is_day30_eq]
  obtain ⟨h2d, h2o⟩ := run_days_idle {} 28 (simulate_day (initialise {}) {} tv1 true sp1 20).1
    (by rw [h1d]; decide) (by rw [h1d]; decide)
  rw [h1d] at h2d
  rw [h1o] at h2o
  constructor
  · rw [simulate_day_day, h2d]; norm_num
  · rw [simulate_day_offer_no_buy, h2o, h2d]
    simp [is_day30_eq]

theorem state_day30_paid_reachable : Reachable {} state_day30_paid :=
  reachable_run_days {} _ _ Reachable.init

/-- C3 (as stated) fails: in the reachable state at the end of day 30, whose offer is
fully paid (cursor 2), a purchase on day 31 leaves the cursor at 1. -/
theorem cursor_decreases_on_purchase :
    Reachable {} state_day30_paid ∧
    ¬ (state_day30_paid.offer.paid_stage_index
        ≤ (simulate_day state_day30_paid {} 0 true 100 20).1.offer.paid_stage_index) := by
  refine ⟨state_day30_paid_reachable, ?_⟩
  rw [simulate_day_index_buy, state_day30_paid_offer.1, state_day30_paid_offer.2]
  simp [is_day30_eq]

/-- C3 (amended): without a purchase the cursor `paid_stage_index` after `simulate_day`
is at least its value before the call; with a purchase the cursor belongs to the newly
created offer and is 1 after the call (2 when the day number is a multiple of 30),
whatever its value was before. -/
theorem cursor_monotone_without_purchase (s : ModelState) (cfg : Config)
    (transfer_volume : Int) (selling_price base_daily_demand : ℚ) :
    s.offer.paid_stage_index
      ≤ (simulate_day s cfg transfer_volume false selling_price
          base_daily_demand).1.offer.paid_stage_index ∧
    (simulate_day s cfg transfer_volume true selling_price
        base_daily_demand).1.offer.paid_stage_index
      = if Int.tmod (s.day + 1) 30 = 0 then 2 else 1 := by
  constructor
  · rw [simulate_day_index_no_buy]
    split_ifs <;> omega
  · rw [simulate_day_index_buy]
    simp [is_day30]

/-! ### C4: the cursor stays within the stage list -/

theorem advance_stage_stages (o : Offer) : o.advance_stage.stages = o.stages := by
  unfold Offer.advance_stage
  split_ifs <;> rfl

theorem advance_stage_index_le (o : Offer)
    (h : o.paid_stage_index ≤ (o.stages.length : Int)) :
    o.advance_stage.paid_stage_index ≤ (o.advance_stage.stages.length : Int) := by
  rw [advance_stage_stages]
  unfold Offer.advance_stage
  split_ifs with hlt
  · show o.paid_stage_index + 1 ≤ _
    omega
  · exact h

theorem advance_stage_index_nonneg (o : Offer) (h : 0 ≤ o.paid_stage_index) :
    0 ≤ o.advance_stage.paid_stage_index := by
  unfold Offer.advance_stage
  split_ifs
  · show 0 ≤ o.paid_stage_index + 1
    omega
  · exact h

/-- One `simulate_day` call preserves `paid_stage_index ≤ stages.size()`. -/
theorem simulate_day_index_le (s : ModelState) (cfg : Config) (tv : Int) (b : Bool) (sp bd : ℚ)
    (h : s.offer.paid_stage_index ≤ (s.offer.stages.length : Int)) :
    (simulate_day s cfg tv b sp bd).1.offer.paid_stage_index
      ≤ ((simulate_day s cfg tv b sp bd).1.offer.stages.length : Int) := by
  cases b
  · rw [simulate_day_offer_no_buy]
    split_ifs with hc
    · show s.offer.paid_stage_index + 1 ≤ (s.offer.stages.length : Int)
      omega
    · exact h
  · rw [simulate_day_offer_buy]
    split_ifs <;> simp

/-- One `simulate_day` call preserves `0 ≤ paid_stage_index`. -/
theorem simulate_day_index_nonneg (s : ModelState) (cfg : Config) (tv : Int) (b : Bool)
    (sp bd : ℚ) (h : 0 ≤ s.offer.paid_stage_index) :
    0 ≤ (simulate_day s cfg tv b sp bd).1.offer.paid_stage_index := by
  cases b
  · rw [simulate_day_index_no_buy]
    split_ifs <;> omega
  · rw [simulate_day_index_buy]
    split_ifs <;> decide

/-- C4: in every state reachable from `initialise cfg` the offer satisfies
`0 ≤ paid_stage_index ≤ stages.size()`; and `Offer::create` establishes, while
`Offer::advance_stage` and `simulate_day` each preserve, `paid_stage_index ≤ stages.size()`. -/
theorem offer_cursor_within_stages :
    (∀ (cfg : Config) (s : ModelState), Reachable cfg s →
      0 ≤ s.offer.paid_stage_index ∧ s.offer.paid_stage_index ≤ (s.offer.stages.length : Int)) ∧
    (∀ (o : Offer) (v : Int) (p : ℚ) (st : List ℚ),
      (o.create v p st).paid_stage_index ≤ ((o.create v p st).stages.length : Int)) ∧
    (∀ o : Offer, o.paid_stage_index ≤ (o.stages.length : Int) →
      o.advance_stage.paid_stage_index ≤ (o.advance_stage.stages.length : Int)) ∧
    (∀ (s : ModelState) (cfg : Config) (transfer_volume : Int) (buy_offer : Bool)
      (selling_price base_daily_demand : ℚ),
      s.offer.paid_stage_index ≤ (s.offer.stages.length : Int) →
      (simulate_day s cfg transfer_volume buy_offer selling_price
          base_daily_demand).1.offer.paid_stage_index
        ≤ ((simulate_day s cfg transfer_volume buy_offer selling_price
          base_daily_demand).1.offer.stages.length : Int)) := by
  refine ⟨?_, ?_, advance_stage_index_le, simulate_day_index_le⟩
  · intro cfg s hs
    induction hs with
    | init => exact ⟨le_refl _, le_refl _⟩
    | step tv b sp bd _ ih =>
      exact ⟨simulate_day_index_nonneg _ cfg tv b sp bd ih.1,
        simulate_day_index_le _ cfg tv b sp bd ih.2⟩
  · intro o v p st
    show (0 : Int) ≤ (st.length : Int)
    omega

/-- C4 witness: the reachable state at the end of day 30, the offer of a fresh state
advanced once, and a purchase day started from the initial state. -/
theorem offer_cursor_within_stages_witness :
    (0 ≤ state_day30_paid.offer.paid_stage_index ∧
      state_day30_paid.offer.paid_stage_index ≤ (state_day30_paid.offer.stages.length : Int)) ∧
    (Offer.new.create 100 80 [1 / 2, 1 / 2]).advance_stage.paid_stage_index
      ≤ ((Offer.new.create 100 80 [1 / 2, 1 / 2]).advance_stage.stages.length : Int) ∧
    (simulate_day (initialise {}) {} 0 true 100 20).1.offer.paid_stage_index
      ≤ ((simulate_day (initialise {}) {} 0 true 100 20).1.offer.stages.length : Int) :=
  ⟨offer_cursor_within_stages.1 {} _ state_day30_paid_reachable,
    offer_cursor_within_stages.2.2.1 _ (by decide),
    offer_cursor_within_stages.2.2.2 _ {} 0 true 100 20 (by decide)⟩

/-! ### C5: the tax fields through a day -/

theorem buy_step_tax_fields (s : ModelState) (cfg : Config) (b : Bool) :
    (buy_step s cfg b).tax_accrued_base = s.tax_accrued_base ∧
    (buy_step s cfg b).total_tax_paid = s.total_tax_paid := by
  unfold buy_step
  cases b <;> simp

theorem service_step_tax_fields (s : ModelState) :
    (service_step s).tax_accrued_base = s.tax_accrued_base ∧
    (service_step s).total_tax_paid = s.total_tax_paid := by
  unfold service_step
  split_ifs <;> simp

theorem credit_step_tax_fields (s : ModelState) (cfg : Config) :
    (credit_step s cfg).tax_accrued_base = s.tax_accrued_base ∧
    (credit_step s cfg).total_tax_paid = s.total_tax_paid := by
  unfold credit_step
  split_ifs <;> simp

theorem interest_step_tax_fields (s : ModelState) (cfg : Config) :
    (interest_step s cfg).tax_accrued_base = s.tax_accrued_base ∧
    (interest_step s cfg).total_tax_paid = s.total_tax_paid := by
  unfold interest_step
  split_ifs <;> simp

/-- The tax base and the cumulative tax after block 6. -/
theorem tax_step_tax_fields (s : ModelState) (cfg : Config) (r : ℚ) :
    (tax_step s cfg r).tax_accrued_base
      = (if is_day30 s.day = true then 0
         else if r > 0 then s.tax_accrued_base + r else s.tax_accrued_base) ∧
    (tax_step s cfg r).total_tax_paid
      = (if is_day30 s.day = true then
           s.total_tax_paid
             + (if r > 0 then s.tax_accrued_base + r else s.tax_accrued_base) * cfg.tax_rate
         else s.total_tax_paid) := by
  unfold tax_step
  by_cases hr : r > 0 <;> by_cases hd : is_day30 s.day = true <;> simp [hr, hd]

/-- The tax base and the cumulative tax after a whole `simulate_day`, in terms of the
day's revenue `revenue_of (before_sales ..)`. -/
theorem simulate_day_tax_fields (s : ModelState) (cfg : Config) (tv : Int) (b : Bool)
    (sp bd : ℚ) :
    (simulate_day s cfg tv b sp bd).1.tax_accrued_base
      = (if is_day30 (s.day + 1) = true then 0
         else if revenue_of (before_sales s cfg tv b) cfg sp bd > 0
           then s.tax_accrued_base + revenue_of (before_sales s cfg tv b) cfg sp bd
           else s.tax_accrued_base) ∧
    (simulate_day s cfg tv b sp bd).1.total_tax_paid
      = (if is_day30 (s.day + 1) = true then
           s.total_tax_paid
             + (if revenue_of (before_sales s cfg tv b) cfg sp bd > 0
                 then s.tax_accrued_base + revenue_of (before_sales s cfg tv b) cfg sp bd
                 else s.tax_accrued_base) * cfg.tax_rate
         else s.total_tax_paid) := by
  simp only [simulate_day, before_credit]
  rw [(interest_step_tax_fields _ cfg).1, (interest_step_tax_fields _ cfg).2,
    (credit_step_tax_fields _ cfg).1, (credit_step_tax_fields _ cfg).2,
    (tax_step_tax_fields _ cfg _).1, (tax_step_tax_fields _ cfg _).2,
    (service_step_tax_fields _).1, (service_step_tax_fields _).2,
    (service_step_stocks _).1]
  have hd : (sales_step (before_sales s cfg tv b) cfg sp bd).day = s.day + 1 := by
    rw [(sales_step_stocks _ cfg sp bd).1, (before_sales_stocks s cfg tv b).1]
  have h1 : (sales_step (before_sales s cfg tv b) cfg sp bd).tax_accrued_base
      = s.tax_accrued_base := by
    show (before_sales s cfg tv b).tax_accrued_base = _
    unfold before_sales
    rw [(buy_step_tax_fields _ cfg b).1]
    rfl
  have h2 : (sales_step (before_sales s cfg tv b) cfg sp bd).total_tax_paid
      = s.total_tax_paid := by
    show (before_sales s cfg tv b).total_tax_paid = _
    unfold before_sales
    rw [(buy_step_tax_fields _ cfg b).2]
    rfl
  rw [hd, h1, h2]
  exact ⟨rfl, rfl⟩

/-- C5: with `d = state.day + 1` the day number of the call, if `d % 30 != 0` then
`total_tax_paid` is unchanged by `simulate_day`, and if `d % 30 == 0` then
`tax_accrued_base` is exactly 0 after the call. -/
theorem tax_only_on_day30 (s : ModelState) (cfg : Config) (transfer_volume : Int)
    (buy_offer : Bool) (selling_price base_daily_demand : ℚ) :
    (Int.tmod (s.day + 1) 30 ≠ 0 →
      (simulate_day s cfg transfer_volume buy_offer selling_price
        base_daily_demand).1.total_tax_paid = s.total_tax_paid) ∧
    (Int.tmod (s.day + 1) 30 = 0 →
      (simulate_day s cfg transfer_volume buy_offer selling_price
        base_daily_demand).1.tax_accrued_base = 0) := by
  obtain ⟨h1, h2⟩ := simulate_day_tax_fields s cfg transfer_volume buy_offer selling_price
    base_daily_demand
  constructor
  · intro hd
    rw [h2, if_neg]
    rw [is_day30_true_iff]
    exact hd
  · intro hd
    rw [h1, if_pos]
    rw [is_day30_true_iff]
    exact hd

theorem state_day29_day : state_day29.day = 29 := by
  unfold state_day29
  rw [(run_days_idle {} 29 (initialise {}) (by decide) (by decide)).1]
  decide

theorem state_day29_reachable : Reachable {} state_day29 :=
  reachable_run_days {} _ _ Reachable.init

/-- C5 witness: day 1 from the initial state leaves `total_tax_paid` alone; day 30,
entered from the reachable state after 29 idle days, ends with a zero tax base. -/
theorem tax_only_on_day30_witness :
    (Int.tmod ((initialise {}).day + 1) 30 ≠ 0 ∧
      (simulate_day (initialise {}) {} 50 false 120 20).1.total_tax_paid
        = (initialise {}).total_tax_paid) ∧
    (Int.tmod (state_day29.day + 1) 30 = 0 ∧
      (simulate_day state_day29 {} 50 false 120 20).1.tax_accrued_base = 0) :=
  ⟨⟨by decide, (tax_only_on_day30 (initialise {}) {} 50 false 120 20).1 (by decide)⟩,
    ⟨by rw [state_day29_day]; decide,
      (tax_only_on_day30 state_day29 {} 50 false 120 20).2 (by rw [state_day29_day]; decide)⟩⟩

/-! ### The money fields through a day -/

/-- The first-stage payment of a freshly created offer: `100 * price * 0.5`. -/
theorem created_offer_payment (o : Offer) (p : ℚ) :
    (o.create 100 p [1 / 2, 1 / 2]).next_payment_amount = 100 * p * (1 / 2) := by
  simp [Offer.create, Offer.next_payment_amount, vec_at]

/-- Block 3 on the balance and the running totals. -/
theorem buy_step_money (s : ModelState) (cfg : Config) (b : Bool) :
    (buy_step s cfg b).bank_account
      = s.bank_account - (if b = true then 100 * cfg.base_offer_price * (1 / 2) else 0) ∧
    (buy_step s cfg b).total_expenses
      = s.total_expenses + (if b = true then 100 * cfg.base_offer_price * (1 / 2) else 0) ∧
    (buy_step s cfg b).total_revenue = s.total_revenue := by
  cases b
  · simp [buy_step]
  · have hp := created_offer_payment s.offer cfg.base_offer_price
    refine ⟨?_, ?_, rfl⟩
    · show s.bank_account
          - (s.offer.create 100 cfg.base_offer_price [1 / 2, 1 / 2]).next_payment_amount = _
      rw [hp]
      rfl
    · show s.total_expenses
          + (s.offer.create 100 cfg.base_offer_price [1 / 2, 1 / 2]).next_payment_amount = _
      rw [hp]
      rfl

/-- Block 5 on the balance and the running totals. -/
theorem service_step_money (s : ModelState) :
    (service_step s).bank_account
      = s.bank_account - (if (!s.offer.is_completed && is_day30 s.day) = true
          then s.offer.next_payment_amount else 0) ∧
    (service_step s).total_expenses
      = s.total_expenses + (if (!s.offer.is_completed && is_day30 s.day) = true
          then s.offer.next_payment_amount else 0) ∧
    (service_step s).total_revenue = s.total_revenue := by
  unfold service_step
  split_ifs <;> simp

/-- Block 6 on the balance and the running totals. -/
theorem tax_step_money (s : ModelState) (cfg : Config) (r : ℚ) :
    (tax_step s cfg r).bank_account
      = s.bank_account - (if is_day30 s.day = true then
          (if r > 0 then s.tax_accrued_base + r else s.tax_accrued_base) * cfg.tax_rate
          else 0) ∧
    (tax_step s cfg r).total_expenses
      = s.total_expenses + (if is_day30 s.day = true then
          (if r > 0 then s.tax_accrued_base + r else s.tax_accrued_base) * cfg.tax_rate
          else 0) ∧
    (tax_step s cfg r).total_revenue = s.total_revenue := by
  unfold tax_step
  by_cases hr : r > 0 <;> by_cases hd : is_day30 s.day = true <;> simp [hr, hd]

/-- The credit draw on the balance, the credit used and the running totals. -/
theorem credit_step_money (s : ModelState) (cfg : Config) :
    (credit_step s cfg).credit_used
      = s.credit_used + (if s.bank_account < 0 then
          min (-s.bank_account) (max 0 (cfg.credit_limit - s.credit_used)) else 0) ∧
    (credit_step s cfg).bank_account
      = s.bank_account + (if s.bank_account < 0 then
          min (-s.bank_account) (max 0 (cfg.credit_limit - s.credit_used)) else 0) ∧
    (credit_step s cfg).total_expenses = s.total_expenses ∧
    (credit_step s cfg).total_revenue = s.total_revenue := by
  unfold credit_step
  split_ifs <;> simp

/-- The interest block on the balance and the running totals. -/
theorem interest_step_money (s : ModelState) (cfg : Config) :
    (interest_step s cfg).bank_account
      = s.bank_account - (if (is_day30 s.day && decide (s.credit_used > 0)) = true
          then s.credit_used * cfg.credit_rate_monthly else 0) ∧
    (interest_step s cfg).total_expenses
      = s.total_expenses + (if (is_day30 s.day && decide (s.credit_used > 0)) = true
          then s.credit_used * cfg.credit_rate_monthly else 0) ∧
    (interest_step s cfg).total_revenue = s.total_revenue := by
  unfold interest_step
  split_ifs <;> simp

/-- The day counter when control reaches the credit draw. -/
theorem before_credit_day (s : ModelState) (cfg : Config) (tv : Int) (b : Bool) (sp bd : ℚ) :
    (before_credit s cfg tv b sp bd).day = s.day + 1 := by
  simp only [before_credit]
  rw [(tax_step_stocks _ cfg _).1, (service_step_stocks _).1, (sales_step_stocks _ cfg sp bd).1,
    (before_sales_stocks s cfg tv b).1]

/-- The balance and `total_expenses` when control reaches block 4. -/
theorem before_sales_money (s : ModelState) (cfg : Config) (tv : Int) (b : Bool) :
    (before_sales s cfg tv b).bank_account
      = s.bank_account - (if b = true then 100 * cfg.base_offer_price * (1 / 2) else 0) ∧
    (before_sales s cfg tv b).total_expenses
      = s.total_expenses + (if b = true then 100 * cfg.base_offer_price * (1 / 2) else 0) ∧
    (before_sales s cfg tv b).total_revenue = s.total_revenue := by
  unfold before_sales
  obtain ⟨h1, h2, h3⟩ := buy_step_money (deliver_step (load_step s tv)) cfg b
  rw [h1, h2, h3]
  exact ⟨rfl, rfl, rfl⟩

/-! ### C6: the credit draw -/

/-- The final balance on a day that is not a multiple of 30 is the one left by the
credit draw: no interest is charged. -/
theorem simulate_day_bank_not_day30 (s : ModelState) (cfg : Config) (tv : Int) (b : Bool)
    (sp bd : ℚ) (hd : Int.tmod (s.day + 1) 30 ≠ 0) :
    (simulate_day s cfg tv b sp bd).1.bank_account
      = (credit_step (before_credit s cfg tv b sp bd) cfg).bank_account := by
  simp only [simulate_day]
  rw [(interest_step_money _ cfg).1, (credit_step_stocks _ cfg).1, before_credit_day,
    (is_day30_false_iff _).2 hd]
  simp

/-- C6: let `b` be the balance when control reaches the credit draw, after the purchase,
sales, staged-offer and tax blocks. If `b < 0`, `credit_used` grows by exactly
`used = min(-b, max(0, credit_limit - credit_used))` and the draw leaves the balance at
`b + used`; if `b ≥ 0` both are unchanged by the draw. Hence, from a state with
`credit_used ≤ credit_limit` on a day that is not a multiple of 30, a negative `b` ends
the call at balance 0 when `-b` fits the available credit, and at the negative balance
`b + (credit_limit - credit_used)` otherwise. -/
theorem credit_draw_exact (s : ModelState) (cfg : Config) (transfer_volume : Int)
    (buy_offer : Bool) (selling_price base_daily_demand : ℚ) :
    ((before_credit s cfg transfer_volume buy_offer selling_price
        base_daily_demand).bank_account < 0 →
      (simulate_day s cfg transfer_volume buy_offer selling_price
          base_daily_demand).1.credit_used
        = s.credit_used
          + min (-(before_credit s cfg transfer_volume buy_offer selling_price
                base_daily_demand).bank_account)
              (max 0 (cfg.credit_limit - s.credit_used)) ∧
      (credit_step (before_credit s cfg transfer_volume buy_offer selling_price
          base_daily_demand) cfg).bank_account
        = (before_credit s cfg transfer_volume buy_offer selling_price
              base_daily_demand).bank_account
          + min (-(before_credit s cfg transfer_volume buy_offer selling_price
                base_daily_demand).bank_account)
              (max 0 (cfg.credit_limit - s.credit_used))) ∧
    (0 ≤ (before_credit s cfg transfer_volume buy_offer selling_price
        base_daily_demand).bank_account →
      (simulate_day s cfg transfer_volume buy_offer selling_price
          base_daily_demand).1.credit_used = s.credit_used ∧
      (credit_step (before_credit s cfg transfer_volume buy_offer selling_price
          base_daily_demand) cfg).bank_account
        = (before_credit s cfg transfer_volume buy_offer selling_price
              base_daily_demand).bank_account) ∧
    (s.credit_used ≤ cfg.credit_limit → Int.tmod (s.day + 1) 30 ≠ 0 →
      (before_credit s cfg transfer_volume buy_offer selling_price
        base_daily_demand).bank_account < 0 →
      (-(before_credit s cfg transfer_volume buy_offer selling_price
            base_daily_demand).bank_account ≤ cfg.credit_limit - s.credit_used →
        (simulate_day s cfg transfer_volume buy_offer selling_price
          base_daily_demand).1.bank_account = 0) ∧
      (cfg.credit_limit - s.credit_used
          < -(before_credit s cfg transfer_volume buy_offer selling_price
            base_daily_demand).bank_account →
        (simulate_day s cfg transfer_volume buy_offer selling_price
            base_daily_demand).1.bank_account
          = (before_credit s cfg transfer_volume buy_offer selling_price
                base_daily_demand).bank_account + (cfg.credit_limit - s.credit_used) ∧
        (simulate_day s cfg transfer_volume buy_offer selling_price
            base_daily_demand).1.bank_account < 0)) := by
  obtain ⟨hcu, hba, -, -⟩ := credit_step_money
    (before_credit s cfg transfer_volume buy_offer selling_price base_daily_demand) cfg
  rw [before_credit_credit_used] at hcu hba
  refine ⟨?_, ?_, ?_⟩
  · intro hneg
    rw [simulate_day_credit_used, hcu, hba, if_pos hneg]
    exact ⟨rfl, rfl⟩
  · intro hpos
    rw [simulate_day_credit_used, hcu, hba, if_neg (not_lt.mpr hpos)]
    exact ⟨add_zero _, add_zero _⟩
  · intro hle hd hneg
    rw [simulate_day_bank_not_day30 s cfg transfer_volume buy_offer selling_price
      base_daily_demand hd, hba, if_pos hneg,
      max_eq_right (sub_nonneg.mpr hle)]
    constructor
    · intro hfit
      rw [min_eq_left hfit]
      ring
    · intro hover
      rw [min_eq_right (le_of_lt hover)]
      exact ⟨rfl, by linarith⟩

/-- The balance of `credit_case_state` is still -200 when the credit draw is reached:
there is no purchase, nothing to sell, and day 1 has no service and no tax. -/
theorem credit_case_balance :
    (before_credit credit_case_state {} 0 false 100 20).bank_account = -200 := by
  norm_num [before_credit, before_sales, load_step, deliver_step, buy_step, sales_step,
    service_step, tax_step, initialise, credit_case_state, sales_qty_of, revenue_of,
    calc_demand, cpp_round, delivered_of, is_day30_eq, Offer.is_completed, Offer.new]

/-- C6 witness: balance -200 at the draw, credit limit 5000 and 4900 already used give
`credit_used = 5000` and a final balance of -100. -/
theorem credit_draw_exact_witness :
    (before_credit credit_case_state {} 0 false 100 20).bank_account = -200 ∧
    credit_case_state.credit_used = 4900 ∧ ({} : Config).credit_limit = 5000 ∧
    (simulate_day credit_case_state {} 0 false 100 20).1.credit_used = 5000 ∧
    (simulate_day credit_case_state {} 0 false 100 20).1.bank_account = -100 := by
  have hb := credit_case_balance
  have hc : credit_case_state.credit_used = 4900 := rfl
  have hl : ({} : Config).credit_limit = 5000 := rfl
  have hneg : (before_credit credit_case_state {} 0 false 100 20).bank_account < 0 := by
    rw [hb]; norm_num
  obtain ⟨h1, -, h3⟩ := credit_draw_exact credit_case_state {} 0 false 100 20
  have h1 := (h1 hneg).1
  have h3 := (h3 (by rw [hc, hl]; norm_num) (by decide) hneg).2
    (by rw [hb, hc, hl]; norm_num)
  rw [hb, hc, hl] at h1 h3
  refine ⟨hb, hc, hl, ?_, ?_⟩
  · rw [h1]; norm_num
  · rw [h3.1]; norm_num

/-! ### The balance and the expenses at the credit draw -/

theorem before_sales_tax_fields (s : ModelState) (cfg : Config) (tv : Int) (b : Bool) :
    (before_sales s cfg tv b).tax_accrued_base = s.tax_accrued_base ∧
    (before_sales s cfg tv b).total_tax_paid = s.total_tax_paid := by
  unfold before_sales
  rw [(buy_step_tax_fields _ cfg b).1, (buy_step_tax_fields _ cfg b).2]
  exact ⟨rfl, rfl⟩

/-- The balance, `total_expenses` and `total_revenue` when control reaches the credit
draw: the purchase payment, the day's revenue, the staged-offer installment and the tax. -/
theorem before_credit_money (s : ModelState) (cfg : Config) (tv : Int) (b : Bool) (sp bd : ℚ) :
    (before_credit s cfg tv b sp bd).bank_account
      = s.bank_account
        - (if b = true then 100 * cfg.base_offer_price * (1 / 2) else 0)
        + revenue_of (before_sales s cfg tv b) cfg sp bd
        - (if (!(before_sales s cfg tv b).offer.is_completed && is_day30 (s.day + 1)) = true
            then (before_sales s cfg tv b).offer.next_payment_amount else 0)
        - (if is_day30 (s.day + 1) = true then
            (if revenue_of (before_sales s cfg tv b) cfg sp bd > 0
              then s.tax_accrued_base + revenue_of (before_sales s cfg tv b) cfg sp bd
              else s.tax_accrued_base) * cfg.tax_rate
            else 0) ∧
    (before_credit s cfg tv b sp bd).total_expenses
      = s.total_expenses
        + (if b = true then 100 * cfg.base_offer_price * (1 / 2) else 0)
        + (if (!(before_sales s cfg tv b).offer.is_completed && is_day30 (s.day + 1)) = true
            then (before_sales s cfg tv b).offer.next_payment_amount else 0)
        + (if is_day30 (s.day + 1) = true then
            (if revenue_of (before_sales s cfg tv b) cfg sp bd > 0
              then s.tax_accrued_base + revenue_of (before_sales s cfg tv b) cfg sp bd
              else s.tax_accrued_base) * cfg.tax_rate
            else 0) ∧
    (before_credit s cfg tv b sp bd).total_revenue
      = s.total_revenue + revenue_of (before_sales s cfg tv b) cfg sp bd := by
  simp only [before_credit]
  obtain ⟨t1, t2, t3⟩ := tax_step_money
    (service_step (sales_step (before_sales s cfg tv b) cfg sp bd)) cfg
    (revenue_of (before_sales s cfg tv b) cfg sp bd)
  obtain ⟨v1, v2, v3⟩ := service_step_money (sales_step (before_sales s cfg tv b) cfg sp bd)
  obtain ⟨b1, b2, b3⟩ := before_sales_money s cfg tv b
  have hd : (sales_step (before_sales s cfg tv b) cfg sp bd).day = s.day + 1 := by
    rw [(sales_step_stocks _ cfg sp bd).1, (before_sales_stocks s cfg tv b).1]
  have ho : (sales_step (before_sales s cfg tv b) cfg sp bd).offer
      = (before_sales s cfg tv b).offer := rfl
  have hb : (sales_step (before_sales s cfg tv b) cfg sp bd).bank_account
      = (before_sales s cfg tv b).bank_account
        + revenue_of (before_sales s cfg tv b) cfg sp bd := rfl
  have he : (sales_step (before_sales s cfg tv b) cfg sp bd).total_expenses
      = (before_sales s cfg tv b).total_expenses := rfl
  have hr : (sales_step (before_sales s cfg tv b) cfg sp bd).total_revenue
      = (before_sales s cfg tv b).total_revenue
        + revenue_of (before_sales s cfg tv b) cfg sp bd := rfl
  have hx : (sales_step (before_sales s cfg tv b) cfg sp bd).tax_accrued_base
      = s.tax_accrued_base := (before_sales_tax_fields s cfg tv b).1
  rw [t1, t2, t3, (service_step_stocks _).1, (service_step_tax_fields _).1, v1, v2, v3,
    hd, ho, hb, he, hr, hx, b1, b2, b3]
  exact ⟨rfl, rfl, rfl⟩

/-- The final balance, `total_expenses` and `total_revenue` of a whole `simulate_day`
in terms of the state at the credit draw: the draw, then the interest on the
`credit_used` it leaves. -/
theorem simulate_day_money (s : ModelState) (cfg : Config) (tv : Int) (b : Bool) (sp bd : ℚ) :
    (simulate_day s cfg tv b sp bd).1.bank_account
      = (credit_step (before_credit s cfg tv b sp bd) cfg).bank_account
        - (if (is_day30 (s.day + 1)
              && decide ((simulate_day s cfg tv b sp bd).1.credit_used > 0)) = true
            then (simulate_day s cfg tv b sp bd).1.credit_used * cfg.credit_rate_monthly
            else 0) ∧
    (simulate_day s cfg tv b sp bd).1.total_expenses
      = (before_credit s cfg tv b sp bd).total_expenses
        + (if (is_day30 (s.day + 1)
              && decide ((simulate_day s cfg tv b sp bd).1.credit_used > 0)) = true
            then (simulate_day s cfg tv b sp bd).1.credit_used * cfg.credit_rate_monthly
            else 0) ∧
    (simulate_day s cfg tv b sp bd).1.total_revenue
      = (before_credit s cfg tv b sp bd).total_revenue := by
  rw [simulate_day_credit_used]
  simp only [simulate_day]
  obtain ⟨i1, i2, i3⟩ := interest_step_money
    (credit_step (before_credit s cfg tv b sp bd) cfg) cfg
  obtain ⟨-, -, c3, c4⟩ := credit_step_money (before_credit s cfg tv b sp bd) cfg
  rw [i1, i2, i3, (credit_step_stocks _ cfg).1, before_credit_day, c3, c4]
  exact ⟨rfl, rfl, rfl⟩

/-! ### C7: the purchase -/

/-- C7: with `buy_offer = true` on a day whose number `state.day + 1` is not a multiple
of 30, the offer after `simulate_day` has volume 100, unit price `cfg.base_offer_price`,
stages `[0.5, 0.5]` and `paid_stage_index = 1`; `total_expenses` has grown by exactly
`100 * cfg.base_offer_price * 0.5`, and that same amount is what block 3 deducted from
`bank_account`. -/
theorem purchase_first_stage (s : ModelState) (cfg : Config) (transfer_volume : Int)
    (selling_price base_daily_demand : ℚ) (hd : Int.tmod (s.day + 1) 30 ≠ 0) :
    (simulate_day s cfg transfer_volume true selling_price base_daily_demand).1.offer
      = { volume := 100, price_per_unit := cfg.base_offer_price, stages := [1 / 2, 1 / 2],
          paid_stage_index := 1 } ∧
    (simulate_day s cfg transfer_volume true selling_price base_daily_demand).1.total_expenses
      = s.total_expenses + 100 * cfg.base_offer_price * (1 / 2) ∧
    (before_sales s cfg transfer_volume true).bank_account
      = s.bank_account - 100 * cfg.base_offer_price * (1 / 2) := by
  have h30 : is_day30 (s.day + 1) = false := (is_day30_false_iff _).2 hd
  refine ⟨?_, ?_, ?_⟩
  · rw [simulate_day_offer_buy, h30]
    simp
  · rw [(simulate_day_money s cfg transfer_volume true selling_price base_daily_demand).2.1,
      (before_credit_money s cfg transfer_volume true selling_price base_daily_demand).2.1, h30]
    simp
  · rw [(before_sales_money s cfg transfer_volume true).1]
    simp

/-- C7 witness: day 1 from `initialise` of the default configuration (offer price 80):
the first-stage payment is 4000 and `paid_stage_index = 1`. -/
theorem purchase_first_stage_witness :
    Int.tmod ((initialise {}).day + 1) 30 ≠ 0 ∧
    (simulate_day (initialise {}) {} 0 true 110 20).1.offer
      = { volume := 100, price_per_unit := 80, stages := [1 / 2, 1 / 2],
          paid_stage_index := 1 } ∧
    (simulate_day (initialise {}) {} 0 true 110 20).1.total_expenses = 4000 ∧
    (before_sales (initialise {}) {} 0 true).bank_account = 10000 - 4000 := by
  obtain ⟨h1, h2, h3⟩ := purchase_first_stage (initialise {}) {} 0 110 20 (by decide)
  have hp : ({} : Config).base_offer_price = 80 := rfl
  have he : (initialise {}).total_expenses = 0 := rfl
  have hb : (initialise {}).bank_account = 10000 := rfl
  rw [hp] at h1 h2 h3
  rw [he] at h2
  rw [hb] at h3
  refine ⟨by decide, h1, ?_, ?_⟩
  · rw [h2]; norm_num
  · rw [h3]; norm_num

/-! ### C8: a purchase overwrites the prior offer -/

/-- After the purchase block the state no longer depends on the prior offer. -/
theorem before_sales_buy_forgets_offer (s : ModelState) (o₁ o₂ : Offer) (cfg : Config)
    (tv : Int) :
    before_sales { s with offer := o₁ } cfg tv true
      = before_sales { s with offer := o₂ } cfg tv true := rfl

/-- C8: two states that differ only in their `offer` field give, under `simulate_day`
with `buy_offer = true` and equal configuration and inputs, the same post-state and the
same `DayResult`: nothing of the overwritten offer survives the call. -/
theorem purchase_overwrites_offer (s : ModelState) (o₁ o₂ : Offer) (cfg : Config)
    (transfer_volume : Int) (selling_price base_daily_demand : ℚ) :
    simulate_day { s with offer := o₁ } cfg transfer_volume true selling_price base_daily_demand
      = simulate_day { s with offer := o₂ } cfg transfer_volume true selling_price
          base_daily_demand := by
  simp only [simulate_day, before_credit]
  rw [before_sales_buy_forgets_offer s o₁ o₂ cfg transfer_volume]

/-! ### C9: stocks stay non-negative -/

theorem delivered_of_nonneg (n : Int) (h : 0 ≤ n) : 0 ≤ delivered_of n := by
  unfold delivered_of
  rw [Int.floor_nonneg]
  have : (0 : ℚ) ≤ (n : ℚ) := by exact_mod_cast h
  positivity

theorem delivered_of_le (n : Int) (h : 0 ≤ n) : delivered_of n ≤ n := by
  unfold delivered_of
  have hn : (0 : ℚ) ≤ (n : ℚ) := by exact_mod_cast h
  have h1 : ((⌊(n : ℚ) * (9 / 10)⌋ : Int) : ℚ) ≤ (n : ℚ) * (9 / 10) := Int.floor_le _
  have h2 : ((⌊(n : ℚ) * (9 / 10)⌋ : Int) : ℚ) ≤ (n : ℚ) := by linarith
  exact_mod_cast h2

theorem calc_demand_nonneg (bd sp : ℚ) (cfg : Config) (sk mo : ℚ) :
    0 ≤ calc_demand bd sp cfg sk mo := by
  unfold calc_demand
  simp only
  split_ifs with h1 h2 h3
  · exact le_refl _
  · exact not_lt.mp h2
  · exact le_refl _
  · exact not_lt.mp h3

theorem cpp_round_nonneg (x : ℚ) (h : 0 ≤ x) : 0 ≤ cpp_round x := by
  unfold cpp_round
  rw [if_pos h, Int.floor_nonneg]
  linarith

/-- The units sold are between 0 and the store stock at the time of sale. -/
theorem sales_qty_of_bounds (s : ModelState) (cfg : Config) (sp bd : ℚ)
    (h : 0 ≤ s.store_stock) :
    0 ≤ sales_qty_of s cfg sp bd ∧ sales_qty_of s cfg sp bd ≤ s.store_stock := by
  unfold sales_qty_of
  simp only
  exact ⟨le_min (cpp_round_nonneg _ (calc_demand_nonneg _ _ _ _ _)) h, min_le_right _ _⟩

/-- C9: from a state whose three stock counts are non-negative, with
`transfer_volume ≥ 0`, all three stock counts are non-negative after `simulate_day`;
the amount loaded is exactly `min(transfer_volume, base_stock)` (what leaves the
warehouse and what block 1 puts on the truck); the returned `daily_sales_qty` lies
between 0 and the store stock before the call plus the units delivered that day; and
`daily_revenue = daily_sales_qty * selling_price`. -/
theorem stocks_stay_nonneg (s : ModelState) (cfg : Config) (transfer_volume : Int)
    (buy_offer : Bool) (selling_price base_daily_demand : ℚ)
    (hb : 0 ≤ s.base_stock) (ht : 0 ≤ s.truck_intransit) (hs : 0 ≤ s.store_stock)
    (hv : 0 ≤ transfer_volume) :
    (0 ≤ (simulate_day s cfg transfer_volume buy_offer selling_price
            base_daily_demand).1.base_stock ∧
      0 ≤ (simulate_day s cfg transfer_volume buy_offer selling_price
            base_daily_demand).1.truck_intransit ∧
      0 ≤ (simulate_day s cfg transfer_volume buy_offer selling_price
            base_daily_demand).1.store_stock) ∧
    ((simulate_day s cfg transfer_volume buy_offer selling_price
          base_daily_demand).1.base_stock
        = s.base_stock - min transfer_volume s.base_stock ∧
      (load_step s transfer_volume).truck_intransit
        = s.truck_intransit + min transfer_volume s.base_stock) ∧
    (0 ≤ (simulate_day s cfg transfer_volume buy_offer selling_price
            base_daily_demand).2.daily_sales_qty ∧
      (simulate_day s cfg transfer_volume buy_offer selling_price
            base_daily_demand).2.daily_sales_qty
        ≤ s.store_stock
          + delivered_of (s.truck_intransit + min transfer_volume s.base_stock)) ∧
    (simulate_day s cfg transfer_volume buy_offer selling_price
          base_daily_demand).2.daily_revenue
      = ((simulate_day s cfg transfer_volume buy_offer selling_price
            base_daily_demand).2.daily_sales_qty : ℚ) * selling_price := by
  obtain ⟨-, h2, h3, h4⟩ := simulate_day_stocks s cfg transfer_volume buy_offer
    selling_price base_daily_demand
  obtain ⟨-, b2, b3, b4⟩ := before_sales_stocks s cfg transfer_volume buy_offer
  have hq : (simulate_day s cfg transfer_volume buy_offer selling_price
      base_daily_demand).2.daily_sales_qty
      = sales_qty_of (before_sales s cfg transfer_volume buy_offer) cfg selling_price
          base_daily_demand := rfl
  have hload : 0 ≤ min transfer_volume s.base_stock := le_min hv hb
  have hn : 0 ≤ s.truck_intransit + min transfer_volume s.base_stock := by omega
  have hd0 := delivered_of_nonneg _ hn
  have hd1 := delivered_of_le _ hn
  have hstore : 0 ≤ (before_sales s cfg transfer_volume buy_offer).store_stock := by
    rw [b4]; omega
  obtain ⟨q0, q1⟩ := sales_qty_of_bounds (before_sales s cfg transfer_volume buy_offer) cfg
    selling_price base_daily_demand hstore
  rw [h2, h3, h4, hq, b2, b3]
  refine ⟨⟨?_, ?_, ?_⟩, ⟨rfl, rfl⟩, ⟨q0, ?_⟩, rfl⟩
  · have := min_le_right transfer_volume s.base_stock
    omega
  · omega
  · omega
  · rw [b4] at q1
    exact q1

/-- C9 witness: day 1 of the default configuration with an oversized transfer request
of 600 units against a warehouse stock of 500. -/
theorem stocks_stay_nonneg_witness :
    ((0 : Int) ≤ (initialise {}).base_stock ∧ (0 : Int) ≤ (initialise {}).truck_intransit ∧
      (0 : Int) ≤ (initialise {}).store_stock ∧ (0 : Int) ≤ 600) ∧
    (simulate_day (initialise {}) {} 600 false 120 20).1.base_stock = 0 ∧
    0 ≤ (simulate_day (initialise {}) {} 600 false 120 20).1.truck_intransit ∧
    0 ≤ (simulate_day (initialise {}) {} 600 false 120 20).1.store_stock ∧
    0 ≤ (simulate_day (initialise {}) {} 600 false 120 20).2.daily_sales_qty := by
  have h := stocks_stay_nonneg (initialise {}) {} 600 false 120 20 (by decide) (by decide)
    (by decide) (by decide)
  refine ⟨⟨by decide, by decide, by decide, by decide⟩, ?_, h.1.2.1, h.1.2.2, h.2.2.1.1⟩
  rw [h.2.1.1]
  decide

/-! ### C10: the demand formula -/

/-- C10: for `base_price > 0`, `base_demand ≥ 0` and skill, motivation in `[0, 1]`,
`calc_demand` returns
`base_demand * max(0, 1 - (selling_price - base_price)/base_price)
  * (0.6 + 0.4 * ((skill + motivation)/2))`;
the staff factor lies in `[0.6, 1.0]`; the price factor exceeds 1 when
`selling_price < base_price` (it is capped below only); the result is never negative
and is 0 whenever `selling_price ≥ 2 * base_price`. -/
theorem calc_demand_formula (base_demand selling_price : ℚ) (cfg : Config) (skill motiv : ℚ)
    (hp : 0 < cfg.base_price) (hbd : 0 ≤ base_demand)
    (hs0 : 0 ≤ skill) (hs1 : skill ≤ 1) (hm0 : 0 ≤ motiv) (hm1 : motiv ≤ 1) :
    calc_demand base_demand selling_price cfg skill motiv
      = base_demand * max 0 (1 - (selling_price - cfg.base_price) / cfg.base_price)
          * (6 / 10 + 4 / 10 * ((skill + motiv) / 2)) ∧
    (6 / 10 ≤ 6 / 10 + 4 / 10 * ((skill + motiv) / 2) ∧
      6 / 10 + 4 / 10 * ((skill + motiv) / 2) ≤ 1) ∧
    (selling_price < cfg.base_price →
      1 < max 0 (1 - (selling_price - cfg.base_price) / cfg.base_price)) ∧
    0 ≤ calc_demand base_demand selling_price cfg skill motiv ∧
    (2 * cfg.base_price ≤ selling_price →
      calc_demand base_demand selling_price cfg skill motiv = 0) := by
  have hstaff0 : (6 : ℚ) / 10 ≤ 6 / 10 + 4 / 10 * ((skill + motiv) / 2) := by linarith
  have hstaff1 : (6 : ℚ) / 10 + 4 / 10 * ((skill + motiv) / 2) ≤ 1 := by linarith
  have hstaffpos : (0 : ℚ) ≤ 6 / 10 + 4 / 10 * ((skill + motiv) / 2) := by linarith
  have hpf : (if 1 - (selling_price - cfg.base_price) / cfg.base_price < 0 then (0 : ℚ)
        else 1 - (selling_price - cfg.base_price) / cfg.base_price)
      = max 0 (1 - (selling_price - cfg.base_price) / cfg.base_price) := by
    split_ifs with h
    · exact (max_eq_left (le_of_lt h)).symm
    · exact (max_eq_right (not_lt.mp h)).symm
  have hprod : 0 ≤ base_demand * max 0 (1 - (selling_price - cfg.base_price) / cfg.base_price)
      * (6 / 10 + 4 / 10 * ((skill + motiv) / 2)) :=
    mul_nonneg (mul_nonneg hbd (le_max_left _ _)) hstaffpos
  have hformula : calc_demand base_demand selling_price cfg skill motiv
      = base_demand * max 0 (1 - (selling_price - cfg.base_price) / cfg.base_price)
          * (6 / 10 + 4 / 10 * ((skill + motiv) / 2)) := by
    unfold calc_demand
    simp only
    rw [hpf, if_neg (not_lt.mpr hprod)]
  refine ⟨hformula, ⟨hstaff0, hstaff1⟩, ?_, calc_demand_nonneg _ _ _ _ _, ?_⟩
  · intro hlt
    have hneg : (selling_price - cfg.base_price) / cfg.base_price < 0 :=
      div_neg_of_neg_of_pos (by linarith) hp
    exact lt_max_of_lt_right (by linarith)
  · intro hge
    have hone : 1 ≤ (selling_price - cfg.base_price) / cfg.base_price := by
      rw [le_div_iff₀ hp]
      linarith
    rw [hformula, max_eq_left (by linarith)]
    ring

/-- C10 witness: the default configuration (base price 100) at selling price 120 with
base demand 20 and skill = motivation = 0.8 gives demand 14.72; at selling price 200
the demand is 0. -/
theorem calc_demand_formula_witness :
    ((0 : ℚ) < ({} : Config).base_price ∧ (0 : ℚ) ≤ 20 ∧ (0 : ℚ) ≤ 8 / 10 ∧ (8 : ℚ) / 10 ≤ 1) ∧
    calc_demand 20 120 {} (8 / 10) (8 / 10) = 1472 / 100 ∧
    calc_demand 20 200 {} (8 / 10) (8 / 10) = 0 := by
  have hp : ({} : Config).base_price = 100 := rfl
  have h1 := (calc_demand_formula 20 120 {} (8 / 10) (8 / 10) (by rw [hp]; norm_num)
    (by norm_num) (by norm_num) (by norm_num) (by norm_num) (by norm_num)).1
  have h2 := (calc_demand_formula 20 200 {} (8 / 10) (8 / 10) (by rw [hp]; norm_num)
    (by norm_num) (by norm_num) (by norm_num) (by norm_num) (by norm_num)).2.2.2.2
    (by rw [hp]; norm_num)
  refine ⟨⟨by rw [hp]; norm_num, by norm_num, by norm_num, by norm_num⟩, ?_, h2⟩
  rw [h1, hp]
  norm_num

/-! ### C11: tax accrual and settlement -/

/-- C11: on a day whose number `state.day + 1` is a multiple of 30, `simulate_day`
increases `total_tax_paid` by exactly
`tax = (tax_accrued_base before the call + the day's revenue if that revenue is > 0)
  * cfg.tax_rate`,
and block 6 deducts the same `tax` from `bank_account` and adds it to `total_expenses`;
on a day that is not a multiple of 30, `tax_accrued_base` after the call is its value
before plus the day's revenue when that revenue is > 0 (and unchanged otherwise). -/
theorem tax_settlement_exact (s : ModelState) (cfg : Config) (transfer_volume : Int)
    (buy_offer : Bool) (selling_price base_daily_demand : ℚ) :
    (Int.tmod (s.day + 1) 30 = 0 →
      (simulate_day s cfg transfer_volume buy_offer selling_price
          base_daily_demand).1.total_tax_paid
        = s.total_tax_paid
          + (if revenue_of (before_sales s cfg transfer_volume buy_offer) cfg selling_price
                base_daily_demand > 0
              then s.tax_accrued_base
                + revenue_of (before_sales s cfg transfer_volume buy_offer) cfg selling_price
                    base_daily_demand
              else s.tax_accrued_base) * cfg.tax_rate ∧
      (before_credit s cfg transfer_volume buy_offer selling_price
          base_daily_demand).bank_account
        = (service_step (sales_step (before_sales s cfg transfer_volume buy_offer) cfg
              selling_price base_daily_demand)).bank_account
          - (if revenue_of (before_sales s cfg transfer_volume buy_offer) cfg selling_price
                base_daily_demand > 0
              then s.tax_accrued_base
                + revenue_of (before_sales s cfg transfer_volume buy_offer) cfg selling_price
                    base_daily_demand
              else s.tax_accrued_base) * cfg.tax_rate ∧
      (before_credit s cfg transfer_volume buy_offer selling_price
          base_daily_demand).total_expenses
        = (service_step (sales_step (before_sales s cfg transfer_volume buy_offer) cfg
              selling_price base_daily_demand)).total_expenses
          + (if revenue_of (before_sales s cfg transfer_volume buy_offer) cfg selling_price
                base_daily_demand > 0
              then s.tax_accrued_base
                + revenue_of (before_sales s cfg transfer_volume buy_offer) cfg selling_price
                    base_daily_demand
              else s.tax_accrued_base) * cfg.tax_rate) ∧
    (Int.tmod (s.day + 1) 30 ≠ 0 →
      (simulate_day s cfg transfer_volume buy_offer selling_price
          base_daily_demand).1.tax_accrued_base
        = (if revenue_of (before_sales s cfg transfer_volume buy_offer) cfg selling_price
                base_daily_demand > 0
            then s.tax_accrued_base
              + revenue_of (before_sales s cfg transfer_volume buy_offer) cfg selling_price
                  base_daily_demand
            else s.tax_accrued_base)) := by
  obtain ⟨h1, h2⟩ := simulate_day_tax_fields s cfg transfer_volume buy_offer selling_price
    base_daily_demand
  obtain ⟨t1, t2, -⟩ := tax_step_money
    (service_step (sales_step (before_sales s cfg transfer_volume buy_offer) cfg
      selling_price base_daily_demand)) cfg
    (revenue_of (before_sales s cfg transfer_volume buy_offer) cfg selling_price
      base_daily_demand)
  have hday : (service_step (sales_step (before_sales s cfg transfer_volume buy_offer) cfg
      selling_price base_daily_demand)).day = s.day + 1 := by
    rw [(service_step_stocks _).1, (sales_step_stocks _ cfg selling_price base_daily_demand).1,
      (before_sales_stocks s cfg transfer_volume buy_offer).1]
  have htab : (service_step (sales_step (before_sales s cfg transfer_volume buy_offer) cfg
      selling_price base_daily_demand)).tax_accrued_base = s.tax_accrued_base := by
    rw [(service_step_tax_fields _).1]
    exact (before_sales_tax_fields s cfg transfer_volume buy_offer).1
  rw [hday, htab] at t1 t2
  constructor
  · intro hd
    have h30 : is_day30 (s.day + 1) = true := (is_day30_true_iff _).2 hd
    rw [h30] at h2 t1 t2
    simp only [if_true] at h2 t1 t2
    exact ⟨h2, t1, t2⟩
  · intro hd
    have h30 : is_day30 (s.day + 1) = false := (is_day30_false_iff _).2 hd
    rw [h30] at h1
    simpa using h1

/-- On day 30 entered from `tax_case_state` nothing is sold: there is no stock. -/
theorem tax_case_revenue :
    revenue_of (before_sales tax_case_state {} 0 false) {} 100 20 = 0 := by
  norm_num [before_sales, load_step, deliver_step, buy_step, initialise, tax_case_state,
    sales_qty_of, revenue_of, calc_demand, cpp_round, delivered_of]

/-- C11 witness: accrued base 5000, no revenue on day 30 and tax rate 0.18 charge 900
and reset the base to 0. -/
theorem tax_settlement_exact_witness :
    Int.tmod (tax_case_state.day + 1) 30 = 0 ∧
    tax_case_state.tax_accrued_base = 5000 ∧ ({} : Config).tax_rate = 18 / 100 ∧
    (simulate_day tax_case_state {} 0 false 100 20).1.total_tax_paid = 900 ∧
    (simulate_day tax_case_state {} 0 false 100 20).1.tax_accrued_base = 0 := by
  have hd : Int.tmod (tax_case_state.day + 1) 30 = 0 := by decide
  have h := ((tax_settlement_exact tax_case_state {} 0 false 100 20).1 hd).1
  have hb : tax_case_state.tax_accrued_base = 5000 := rfl
  have hp : tax_case_state.total_tax_paid = 0 := rfl
  have hr : ({} : Config).tax_rate = 18 / 100 := rfl
  rw [tax_case_revenue, hb, hp, hr] at h
  refine ⟨hd, hb, hr, ?_, ?_⟩
  · rw [h]; norm_num
  · rw [(simulate_day_tax_fields tax_case_state {} 0 false 100 20).1,
      (is_day30_true_iff _).2 hd]
    rfl

/-! ### C12: the day-1 scenario of the scripted run -/

/-- C12: from `initialise` of the default configuration, `simulate_day` with
`transfer_volume = 50`, `buy_offer = false`, `selling_price = 120` and base demand 20
computes demand 14.72, returns `day = 1`, `daily_sales_qty = 15` and
`daily_revenue = 1800`, and leaves `base_stock = 450`, `truck_intransit = 5`,
`store_stock = 80`, `bank_account = 11800`, `credit_used = 0` and
`tax_accrued_base = 1800`. -/
theorem day_one_scenario :
    calc_demand 20 120 {} (initialise {}).sales_skill (initialise {}).sales_motivation
      = 1472 / 100 ∧
    (simulate_day (initialise {}) {} 50 false 120 20).2.day = 1 ∧
    (simulate_day (initialise {}) {} 50 false 120 20).2.daily_sales_qty = 15 ∧
    (simulate_day (initialise {}) {} 50 false 120 20).2.daily_revenue = 1800 ∧
    (simulate_day (initialise {}) {} 50 false 120 20).1.base_stock = 450 ∧
    (simulate_day (initialise {}) {} 50 false 120 20).1.truck_intransit = 5 ∧
    (simulate_day (initialise {}) {} 50 false 120 20).1.store_stock = 80 ∧
    (simulate_day (initialise {}) {} 50 false 120 20).1.bank_account = 11800 ∧
    (simulate_day (initialise {}) {} 50 false 120 20).1.credit_used = 0 ∧
    (simulate_day (initialise {}) {} 50 false 120 20).1.tax_accrued_base = 1800 := by
  have hdemand : calc_demand 20 120 {} (initialise {}).sales_skill
      (initialise {}).sales_motivation = 1472 / 100 := by
    norm_num [calc_demand, initialise]
  refine ⟨hdemand, ?_⟩
  norm_num [simulate_day, mk_result, before_credit, before_sales, load_step, deliver_step,
    buy_step, sales_step, service_step, tax_step, credit_step, interest_step, initialise,
    sales_qty_of, revenue_of, calc_demand, cpp_round, delivered_of, is_day30_eq,
    Offer.is_completed, Offer.new]

/-! ### C13: the staged-offer service -/

/-- The state `state_day29_owing` is reachable, at day 29, with one installment paid. -/
theorem state_day29_owing_facts :
    Reachable {} state_day29_owing ∧ state_day29_owing.day = 29 ∧
    state_day29_owing.offer
      = { volume := 100, price_per_unit := 80, stages := [1 / 2, 1 / 2], paid_stage_index := 1 } := by
  refine ⟨reachable_run_days {} _ _ Reachable.init, ?_⟩
  unfold state_day29_owing
  rw [run_days_cons, buy_day_buy_offer]
  generalize buy_day.transfer_volume = tv1
  generalize buy_day.selling_price = sp1
  have h0d : (initialise {}).day = 0 := rfl
  have hprice : ({} : Config).base_offer_price = 80 := rfl
  have h1d : (simulate_day (initialise {}) {} tv1 true sp1 20).1.day = 1 := by
    rw [simulate_day_day, h0d]; norm_num
  have h1o : (simulate_day (initialise {}) {} tv1 true sp1 20).1.offer
      = { volume := 100, price_per_unit := 80, stages := [1 / 2, 1 / 2],
          paid_stage_index := 1 } := by
    rw [simulate_day_offer_buy, h0d, hprice]
    simp [is_day30_eq]
  obtain ⟨h2d, h2o⟩ := run_days_idle {} 28 (simulate_day (initialise {}) {} tv1 true sp1 20).1
    (by rw [h1d]; decide) (by rw [h1d]; decide)
  rw [h1d] at h2d
  rw [h1o] at h2o
  exact ⟨by rw [h2d]; norm_num, h2o⟩

/-- The state on which block 5 runs, for a day without purchase: its day counter and
its offer. -/
theorem service_input_no_buy (s : ModelState) (cfg : Config) (tv : Int) (sp bd : ℚ) :
    (sales_step (before_sales s cfg tv false) cfg sp bd).day = s.day + 1 ∧
    (sales_step (before_sales s cfg tv false) cfg sp bd).offer = s.offer := by
  constructor
  · rw [(sales_step_stocks _ cfg sp bd).1, (before_sales_stocks s cfg tv false).1]
  · show (before_sales s cfg tv false).offer = s.offer
    rw [before_sales_offer]
    rfl

/-- C13: with `buy_offer = false`, `paid_stage_index` after `simulate_day` is its value
before plus 1 if the offer was incomplete (`paid_stage_index < stages.size()`) and the
day number `state.day + 1` is a multiple of 30, and its value before otherwise. In the
former case block 5 deducts the installment
`volume * price_per_unit * stages[paid_stage_index]` from `bank_account` and adds it to
`total_expenses`; otherwise block 5 changes nothing. For a completed offer
`next_payment_amount` is 0 and `advance_stage` is a no-op. -/
theorem staged_service_exact (s : ModelState) (cfg : Config) (transfer_volume : Int)
    (selling_price base_daily_demand : ℚ) :
    (simulate_day s cfg transfer_volume false selling_price
        base_daily_demand).1.offer.paid_stage_index
      = (if s.offer.paid_stage_index < (s.offer.stages.length : Int)
            ∧ Int.tmod (s.day + 1) 30 = 0
          then s.offer.paid_stage_index + 1 else s.offer.paid_stage_index) ∧
    (s.offer.paid_stage_index < (s.offer.stages.length : Int) →
      Int.tmod (s.day + 1) 30 = 0 →
      (service_step (sales_step (before_sales s cfg transfer_volume false) cfg selling_price
          base_daily_demand)).bank_account
        = (sales_step (before_sales s cfg transfer_volume false) cfg selling_price
            base_daily_demand).bank_account
          - (s.offer.volume : ℚ) * s.offer.price_per_unit
              * vec_at s.offer.stages s.offer.paid_stage_index ∧
      (service_step (sales_step (before_sales s cfg transfer_volume false) cfg selling_price
          base_daily_demand)).total_expenses
        = (sales_step (before_sales s cfg transfer_volume false) cfg selling_price
            base_daily_demand).total_expenses
          + (s.offer.volume : ℚ) * s.offer.price_per_unit
              * vec_at s.offer.stages s.offer.paid_stage_index) ∧
    (¬ (s.offer.paid_stage_index < (s.offer.stages.length : Int)
          ∧ Int.tmod (s.day + 1) 30 = 0) →
      service_step (sales_step (before_sales s cfg transfer_volume false) cfg selling_price
          base_daily_demand)
        = sales_step (before_sales s cfg transfer_volume false) cfg selling_price
            base_daily_demand) ∧
    ((s.offer.stages.length : Int) ≤ s.offer.paid_stage_index →
      s.offer.next_payment_amount = 0 ∧ s.offer.advance_stage = s.offer) := by
  obtain ⟨hday, hoff⟩ := service_input_no_buy s cfg transfer_volume selling_price
    base_daily_demand
  refine ⟨?_, ?_, ?_, ?_⟩
  · rw [simulate_day_index_no_buy]
    simp only [is_day30_true_iff]
  · intro hlt hd
    obtain ⟨m1, m2, -⟩ := service_step_money (sales_step (before_sales s cfg transfer_volume
      false) cfg selling_price base_daily_demand)
    have hpay : s.offer.next_payment_amount
        = (s.offer.volume : ℚ) * s.offer.price_per_unit
            * vec_at s.offer.stages s.offer.paid_stage_index := by
      unfold Offer.next_payment_amount
      rw [if_neg (not_le.mpr hlt)]
    have hcond : (!s.offer.is_completed && is_day30 (s.day + 1)) = true := by
      simp [Offer.is_completed, hlt, (is_day30_true_iff _).2 hd]
    rw [hday, hoff, hcond, hpay] at m1 m2
    exact ⟨m1, m2⟩
  · intro hnot
    have hcond : (!s.offer.is_completed && is_day30 (s.day + 1)) = false := by
      by_cases hlt : s.offer.paid_stage_index < (s.offer.stages.length : Int)
      · have hd : Int.tmod (s.day + 1) 30 ≠ 0 := fun h => hnot ⟨hlt, h⟩
        simp [(is_day30_false_iff _).2 hd]
      · simp [Offer.is_completed, not_lt.mp hlt]
    unfold service_step
    rw [hday, hoff, hcond]
    rfl
  · intro hge
    constructor
    · unfold Offer.next_payment_amount
      rw [if_pos hge]
    · unfold Offer.advance_stage
      rw [if_neg (not_lt.mpr hge)]

/-- C13 witness: day 30 entered from the reachable state `state_day29_owing` (offer of
100 units at 80 with the first installment paid): the cursor goes from 1 to 2 and block 5
books the installment `100 * 80 * 0.5 = 4000`. -/
theorem staged_service_exact_witness :
    (state_day29_owing.offer.paid_stage_index < (state_day29_owing.offer.stages.length : Int) ∧
      Int.tmod (state_day29_owing.day + 1) 30 = 0) ∧
    (simulate_day state_day29_owing {} 0 false 100 20).1.offer.paid_stage_index = 2 ∧
    (service_step (sales_step (before_sales state_day29_owing {} 0 false) {} 100
        20)).total_expenses
      = (sales_step (before_sales state_day29_owing {} 0 false) {} 100 20).total_expenses
        + 4000 := by
  obtain ⟨-, hd, ho⟩ := state_day29_owing_facts
  have hlt : state_day29_owing.offer.paid_stage_index
      < (state_day29_owing.offer.stages.length : Int) := by
    rw [ho]; decide
  have hmod : Int.tmod (state_day29_owing.day + 1) 30 = 0 := by
    rw [hd]; decide
  obtain ⟨h1, h2, -, -⟩ := staged_service_exact state_day29_owing {} 0 100 20
  have h2 := (h2 hlt hmod).2
  rw [if_pos ⟨hlt, hmod⟩] at h1
  rw [ho] at h1 h2
  refine ⟨⟨hlt, hmod⟩, ?_, ?_⟩
  · rw [h1]
    norm_num
  · rw [h2]
    norm_num [vec_at]

/-! ### C14: credit interest -/

/-- C14: let `sc` be the state right after the credit draw. If the day number
`state.day + 1` is a multiple of 30 and `sc.credit_used > 0`, then
`interest = sc.credit_used * cfg.credit_rate_monthly` is deducted from `bank_account`
and added to `total_expenses`; the interest never changes `credit_used` (the final
`credit_used` is `sc.credit_used`); and if the day number is not a multiple of 30 or
`sc.credit_used` is not positive, no interest is charged. -/
theorem credit_interest_exact (s : ModelState) (cfg : Config) (transfer_volume : Int)
    (buy_offer : Bool) (selling_price base_daily_demand : ℚ) :
    (Int.tmod (s.day + 1) 30 = 0 →
      0 < (credit_step (before_credit s cfg transfer_volume buy_offer selling_price
            base_daily_demand) cfg).credit_used →
      (simulate_day s cfg transfer_volume buy_offer selling_price
          base_daily_demand).1.bank_account
        = (credit_step (before_credit s cfg transfer_volume buy_offer selling_price
              base_daily_demand) cfg).bank_account
          - (credit_step (before_credit s cfg transfer_volume buy_offer selling_price
              base_daily_demand) cfg).credit_used * cfg.credit_rate_monthly ∧
      (simulate_day s cfg transfer_volume buy_offer selling_price
          base_daily_demand).1.total_expenses
        = (credit_step (before_credit s cfg transfer_volume buy_offer selling_price
              base_daily_demand) cfg).total_expenses
          + (credit_step (before_credit s cfg transfer_volume buy_offer selling_price
              base_daily_demand) cfg).credit_used * cfg.credit_rate_monthly) ∧
    (simulate_day s cfg transfer_volume buy_offer selling_price
        base_daily_demand).1.credit_used
      = (credit_step (before_credit s cfg transfer_volume buy_offer selling_price
          base_daily_demand) cfg).credit_used ∧
    (Int.tmod (s.day + 1) 30 ≠ 0
        ∨ (credit_step (before_credit s cfg transfer_volume buy_offer selling_price
            base_daily_demand) cfg).credit_used ≤ 0 →
      (simulate_day s cfg transfer_volume buy_offer selling_price
          base_daily_demand).1.bank_account
        = (credit_step (before_credit s cfg transfer_volume buy_offer selling_price
              base_daily_demand) cfg).bank_account ∧
      (simulate_day s cfg transfer_volume buy_offer selling_price
          base_daily_demand).1.total_expenses
        = (credit_step (before_credit s cfg transfer_volume buy_offer selling_price
              base_daily_demand) cfg).total_expenses) := by
  obtain ⟨m1, m2, -⟩ := simulate_day_money s cfg transfer_volume buy_offer selling_price
    base_daily_demand
  have hcu := simulate_day_credit_used s cfg transfer_volume buy_offer selling_price
    base_daily_demand
  obtain ⟨-, -, c3, -⟩ := credit_step_money
    (before_credit s cfg transfer_volume buy_offer selling_price base_daily_demand) cfg
  rw [hcu] at m1 m2
  rw [← c3] at m2
  refine ⟨?_, hcu, ?_⟩
  · intro hd hpos
    have hcond : (is_day30 (s.day + 1)
        && decide ((credit_step (before_credit s cfg transfer_volume buy_offer selling_price
            base_daily_demand) cfg).credit_used > 0)) = true := by
      simp [(is_day30_true_iff _).2 hd, hpos]
    rw [hcond] at m1 m2
    exact ⟨m1, m2⟩
  · intro hor
    have hcond : (is_day30 (s.day + 1)
        && decide ((credit_step (before_credit s cfg transfer_volume buy_offer selling_price
            base_daily_demand) cfg).credit_used > 0)) = false := by
      rcases hor with hd | hle
      · simp [(is_day30_false_iff _).2 hd]
      · simp [hle]
    rw [hcond] at m1 m2
    simp only [Bool.false_eq_true, if_false, sub_zero, add_zero] at m1 m2
    exact ⟨m1, m2⟩

/-- The state after the credit draw of day 30 entered from `interest_case_state`:
nothing is sold, the empty offer is complete, the tax base is 0 and the balance 500 needs
no draw. -/
theorem interest_case_after_draw :
    (credit_step (before_credit interest_case_state {} 0 false 100 20) {}).bank_account = 500 ∧
    (credit_step (before_credit interest_case_state {} 0 false 100 20) {}).credit_used = 1000 ∧
    (credit_step (before_credit interest_case_state {} 0 false 100 20) {}).total_expenses
      = interest_case_state.total_expenses := by
  norm_num [before_credit, before_sales, load_step, deliver_step, buy_step, sales_step,
    service_step, tax_step, credit_step, initialise, interest_case_state, sales_qty_of,
    revenue_of, calc_demand, cpp_round, delivered_of, is_day30_eq, Offer.is_completed,
    Offer.new]

/-- C14 witness: day 29 to 30 with `credit_used = 1000`, rate 0.02 and balance 500: the
balance becomes 480, `credit_used` stays 1000 and `total_expenses` grows by 20. -/
theorem credit_interest_exact_witness :
    (Int.tmod (interest_case_state.day + 1) 30 = 0 ∧
      0 < (credit_step (before_credit interest_case_state {} 0 false 100 20) {}).credit_used) ∧
    (simulate_day interest_case_state {} 0 false 100 20).1.bank_account = 480 ∧
    (simulate_day interest_case_state {} 0 false 100 20).1.credit_used = 1000 ∧
    (simulate_day interest_case_state {} 0 false 100 20).1.total_expenses
      = interest_case_state.total_expenses + 20 := by
  obtain ⟨hb, hc, he⟩ := interest_case_after_draw
  have hd : Int.tmod (interest_case_state.day + 1) 30 = 0 := by decide
  have hpos : 0 < (credit_step (before_credit interest_case_state {} 0 false 100 20)
      {}).credit_used := by
    rw [hc]; norm_num
  have hr : ({} : Config).credit_rate_monthly = 2 / 100 := rfl
  obtain ⟨h1, h2, -⟩ := credit_interest_exact interest_case_state {} 0 false 100 20
  obtain ⟨h1a, h1b⟩ := h1 hd hpos
  rw [hb, hc, hr] at h1a
  rw [hc, he, hr] at h1b
  rw [hc] at h2
  refine ⟨⟨hd, hpos⟩, ?_, h2, ?_⟩
  · rw [h1a]; norm_num
  · rw [h1b]; norm_num

/-! ### C15: the day counter and the returned snapshot -/

/-- The day counter after the driver loop has processed a list of inputs. -/
theorem run_days_day (cfg : Config) (inputs : List DayInput) :
    ∀ s : ModelState, (run_days cfg s inputs).day = s.day + (inputs.length : Int) := by
  induction inputs with
  | nil =>
    intro s
    rw [run_days_nil]
    simp
  | cons i rest ih =>
    intro s
    rw [run_days_cons, ih, simulate_day_day, List.length_cons]
    push_cast
    ring

/-- The returned record is built from the final state and the two locals of block 4. -/
theorem simulate_day_result (s : ModelState) (cfg : Config) (tv : Int) (b : Bool) (sp bd : ℚ) :
    (simulate_day s cfg tv b sp bd).2
      = mk_result (simulate_day s cfg tv b sp bd).1
          (sales_qty_of (before_sales s cfg tv b) cfg sp bd)
          (revenue_of (before_sales s cfg tv b) cfg sp bd) := rfl

/-- C15: `simulate_day` increments `state.day` by exactly 1, and the returned `DayResult`
is a snapshot of the post-call state: `day`, `bank_account`, `credit_used`, `base_stock`,
`truck_intransit`, `store_stock`, `offer_volume`, `offer_paid_stage`, `tax_accrued_base`
and `total_tax_paid` equal the corresponding fields of the state after the call.
The initial state has `day = 0`, so the call that follows `n - 1` earlier calls of the
driver loop returns `day = n`. -/
theorem day_result_snapshot (s : ModelState) (cfg : Config) (transfer_volume : Int)
    (buy_offer : Bool) (selling_price base_daily_demand : ℚ) :
    (simulate_day s cfg transfer_volume buy_offer selling_price base_daily_demand).1.day
      = s.day + 1 ∧
    ((simulate_day s cfg transfer_volume buy_offer selling_price base_daily_demand).2.day
        = (simulate_day s cfg transfer_volume buy_offer selling_price base_daily_demand).1.day ∧
      (simulate_day s cfg transfer_volume buy_offer selling_price
          base_daily_demand).2.bank_account
        = (simulate_day s cfg transfer_volume buy_offer selling_price
            base_daily_demand).1.bank_account ∧
      (simulate_day s cfg transfer_volume buy_offer selling_price
          base_daily_demand).2.credit_used
        = (simulate_day s cfg transfer_volume buy_offer selling_price
            base_daily_demand).1.credit_used ∧
      (simulate_day s cfg transfer_volume buy_offer selling_price
          base_daily_demand).2.base_stock
        = (simulate_day s cfg transfer_volume buy_offer selling_price
            base_daily_demand).1.base_stock ∧
      (simulate_day s cfg transfer_volume buy_offer selling_price
          base_daily_demand).2.truck_intransit
        = (simulate_day s cfg transfer_volume buy_offer selling_price
            base_daily_demand).1.truck_intransit ∧
      (simulate_day s cfg transfer_volume buy_offer selling_price
          base_daily_demand).2.store_stock
        = (simulate_day s cfg transfer_volume buy_offer selling_price
            base_daily_demand).1.store_stock ∧
      (simulate_day s cfg transfer_volume buy_offer selling_price
          base_daily_demand).2.offer_volume
        = (simulate_day s cfg transfer_volume buy_offer selling_price
            base_daily_demand).1.offer.volume ∧
      (simulate_day s cfg transfer_volume buy_offer selling_price
          base_daily_demand).2.offer_paid_stage
        = (simulate_day s cfg transfer_volume buy_offer selling_price
            base_daily_demand).1.offer.paid_stage_index ∧
      (simulate_day s cfg transfer_volume buy_offer selling_price
          base_daily_demand).2.tax_accrued_base
        = (simulate_day s cfg transfer_volume buy_offer selling_price
            base_daily_demand).1.tax_accrued_base ∧
      (simulate_day s cfg transfer_volume buy_offer selling_price
          base_daily_demand).2.total_tax_paid
        = (simulate_day s cfg transfer_volume buy_offer selling_price
            base_daily_demand).1.total_tax_paid) ∧
    (initialise cfg).day = 0 ∧
    (∀ (earlier : List DayInput),
      (simulate_day (run_days cfg (initialise cfg) earlier) cfg transfer_volume buy_offer
          selling_price base_daily_demand).2.day = (earlier.length : Int) + 1) := by
  refine ⟨simulate_day_day _ _ _ _ _ _, ?_, rfl, ?_⟩
  · rw [simulate_day_result]
    exact ⟨rfl, rfl, rfl, rfl, rfl, rfl, rfl, rfl, rfl, rfl⟩
  · intro earlier
    rw [simulate_day_result]
    show (simulate_day (run_days cfg (initialise cfg) earlier) cfg transfer_volume buy_offer
      selling_price base_daily_demand).1.day = _
    rw [simulate_day_day, run_days_day]
    have h0 : (initialise cfg).day = 0 := rfl
    rw [h0]
    ring

/-! ### C16: the running totals never decrease -/

theorem getD_nonneg (xs : List ℚ) (h : ∀ x ∈ xs, 0 ≤ x) : ∀ n : Nat, 0 ≤ xs.getD n 0 := by
  induction xs with
  | nil => intro n; simp
  | cons a rest ih =>
    intro n
    cases n with
    | zero => simpa using h a (List.mem_cons_self a rest)
    | succ k =>
      simpa using ih (fun x hx => h x (List.mem_cons_of_mem a hx)) k

theorem vec_at_nonneg (xs : List ℚ) (h : ∀ x ∈ xs, 0 ≤ x) (i : Int) : 0 ≤ vec_at xs i := by
  unfold vec_at
  split_ifs
  · exact getD_nonneg xs h _
  · exact le_refl _

theorem next_payment_amount_nonneg (o : Offer) (h : o.nonneg) : 0 ≤ o.next_payment_amount := by
  obtain ⟨hv, hp, hs⟩ := h
  unfold Offer.next_payment_amount
  split_ifs
  · exact le_refl _
  · have hvq : (0 : ℚ) ≤ (o.volume : ℚ) := by exact_mod_cast hv
    exact mul_nonneg (mul_nonneg hvq hp) (vec_at_nonneg _ hs _)

theorem advance_stage_nonneg (o : Offer) (h : o.nonneg) : o.advance_stage.nonneg := by
  unfold Offer.advance_stage
  split_ifs
  · exact h
  · exact h

theorem created_offer_nonneg (o : Offer) (p : ℚ) (hp : 0 ≤ p) :
    (o.create 100 p [1 / 2, 1 / 2]).nonneg := by
  refine ⟨?_, hp, ?_⟩
  · show (0 : Int) ≤ 100
    decide
  intro x hx
  have hx2 : x = 1 / 2 := by
    simp only [Offer.create, List.mem_cons, List.mem_singleton, List.not_mem_nil,
      or_false, or_self] at hx
    exact hx
  rw [hx2]
  norm_num

/-- The offer on which block 5 runs is non-negative if the prior offer was. -/
theorem before_sales_offer_nonneg (s : ModelState) (cfg : Config) (tv : Int) (b : Bool)
    (hp : 0 ≤ cfg.base_offer_price) (ho : s.offer.nonneg) :
    (before_sales s cfg tv b).offer.nonneg := by
  rw [before_sales_offer]
  cases b
  · exact ho
  · exact advance_stage_nonneg _ (created_offer_nonneg _ _ hp)

theorem simulate_day_offer_nonneg (s : ModelState) (cfg : Config) (tv : Int) (b : Bool)
    (sp bd : ℚ) (hp : 0 ≤ cfg.base_offer_price) (ho : s.offer.nonneg) :
    (simulate_day s cfg tv b sp bd).1.offer.nonneg := by
  rw [simulate_day_offer]
  split_ifs
  · exact advance_stage_nonneg _ (before_sales_offer_nonneg s cfg tv b hp ho)
  · exact before_sales_offer_nonneg s cfg tv b hp ho

/-- Non-negative stocks and a non-negative transfer request give non-negative stocks
after the call and a non-negative number of units sold. -/
theorem simulate_day_stocks_nonneg (s : ModelState) (cfg : Config) (tv : Int) (b : Bool)
    (sp bd : ℚ) (hb : 0 ≤ s.base_stock) (ht : 0 ≤ s.truck_intransit) (hs : 0 ≤ s.store_stock)
    (hv : 0 ≤ tv) :
    0 ≤ (simulate_day s cfg tv b sp bd).1.base_stock ∧
    0 ≤ (simulate_day s cfg tv b sp bd).1.truck_intransit ∧
    0 ≤ (simulate_day s cfg tv b sp bd).1.store_stock ∧
    0 ≤ sales_qty_of (before_sales s cfg tv b) cfg sp bd := by
  obtain ⟨-, h2, h3, h4⟩ := simulate_day_stocks s cfg tv b sp bd
  obtain ⟨-, b2, b3, b4⟩ := before_sales_stocks s cfg tv b
  have hload : 0 ≤ min tv s.base_stock := le_min hv hb
  have hn : 0 ≤ s.truck_intransit + min tv s.base_stock := by omega
  have hd0 := delivered_of_nonneg _ hn
  have hd1 := delivered_of_le _ hn
  have hstore : 0 ≤ (before_sales s cfg tv b).store_stock := by
    rw [b4]; omega
  obtain ⟨q0, q1⟩ := sales_qty_of_bounds (before_sales s cfg tv b) cfg sp bd hstore
  rw [h2, h3, h4, b2, b3]
  refine ⟨?_, ?_, ?_, q0⟩
  · have := min_le_right tv s.base_stock
    omega
  · omega
  · omega

/-- One call with non-negative inputs, from a state with non-negative stocks, tax base
and offer, does not decrease the three running totals and keeps the tax base ≥ 0. -/
theorem simulate_day_totals_step (s : ModelState) (cfg : Config) (tv : Int) (b : Bool)
    (sp bd : ℚ) (hop : 0 ≤ cfg.base_offer_price) (htax : 0 ≤ cfg.tax_rate)
    (hcr : 0 ≤ cfg.credit_rate_monthly)
    (hb : 0 ≤ s.base_stock) (ht : 0 ≤ s.truck_intransit) (hs : 0 ≤ s.store_stock)
    (htab : 0 ≤ s.tax_accrued_base) (ho : s.offer.nonneg) (hv : 0 ≤ tv) (hsp : 0 ≤ sp) :
    s.total_revenue ≤ (simulate_day s cfg tv b sp bd).1.total_revenue ∧
    s.total_tax_paid ≤ (simulate_day s cfg tv b sp bd).1.total_tax_paid ∧
    s.total_expenses ≤ (simulate_day s cfg tv b sp bd).1.total_expenses ∧
    0 ≤ (simulate_day s cfg tv b sp bd).1.tax_accrued_base := by
  obtain ⟨-, -, -, hq⟩ := simulate_day_stocks_nonneg s cfg tv b sp bd hb ht hs hv
  have hrev : 0 ≤ revenue_of (before_sales s cfg tv b) cfg sp bd := by
    unfold revenue_of
    have hqq : (0 : ℚ) ≤ (sales_qty_of (before_sales s cfg tv b) cfg sp bd : ℚ) := by
      exact_mod_cast hq
    exact mul_nonneg hqq hsp
  obtain ⟨x1, x2⟩ := simulate_day_tax_fields s cfg tv b sp bd
  obtain ⟨-, m2, m3⟩ := simulate_day_money s cfg tv b sp bd
  obtain ⟨-, e2, e3⟩ := before_credit_money s cfg tv b sp bd
  generalize revenue_of (before_sales s cfg tv b) cfg sp bd = rev at hrev x1 x2 e2 e3
  have hbase : 0 ≤ (if rev > 0 then s.tax_accrued_base + rev else s.tax_accrued_base) := by
    split_ifs
    · linarith
    · exact htab
  have hpay := next_payment_amount_nonneg _ (before_sales_offer_nonneg s cfg tv b hop ho)
  have hbuy : (0 : ℚ) ≤ (if b = true then 100 * cfg.base_offer_price * (1 / 2) else 0) := by
    split_ifs
    · positivity
    · exact le_refl _
  have hserv : (0 : ℚ) ≤ (if (!(before_sales s cfg tv b).offer.is_completed
      && is_day30 (s.day + 1)) = true
      then (before_sales s cfg tv b).offer.next_payment_amount else 0) := by
    split_ifs
    · exact hpay
    · exact le_refl _
  have htaxp : (0 : ℚ) ≤ (if is_day30 (s.day + 1) = true then
      (if rev > 0 then s.tax_accrued_base + rev else s.tax_accrued_base) * cfg.tax_rate
      else 0) := by
    split_ifs
    · exact mul_nonneg (by linarith) htax
    · exact mul_nonneg htab htax
    · exact le_refl _
  have hint : (0 : ℚ) ≤ (if (is_day30 (s.day + 1)
      && decide ((simulate_day s cfg tv b sp bd).1.credit_used > 0)) = true
      then (simulate_day s cfg tv b sp bd).1.credit_used * cfg.credit_rate_monthly
      else 0) := by
    split_ifs with hc
    · have hpos : (simulate_day s cfg tv b sp bd).1.credit_used > 0 := by
        simp only [Bool.and_eq_true, decide_eq_true_eq] at hc
        exact hc.2
      exact mul_nonneg (le_of_lt hpos) hcr
    · exact le_refl _
  refine ⟨?_, ?_, ?_, ?_⟩
  · rw [m3, e3]
    linarith
  · rw [x2]
    by_cases hd : is_day30 (s.day + 1) = true
    · rw [if_pos hd]
      have := mul_nonneg hbase htax
      linarith
    · rw [if_neg hd]
  · rw [m2, e2]
    linarith
  · rw [x1]
    split_ifs
    · exact le_refl _
    · linarith
    · exact htab

/-- The invariant behind C16: non-negative stocks, tax base and offer in every state
reached through non-negative inputs. -/
theorem reachable_nonneg_invariant (cfg : Config) (hop : 0 ≤ cfg.base_offer_price)
    (htax : 0 ≤ cfg.tax_rate) (hcr : 0 ≤ cfg.credit_rate_monthly)
    (hib : 0 ≤ cfg.initial_base_stock) (his : 0 ≤ cfg.initial_store_stock)
    (s : ModelState) (hs : ReachableNonneg cfg s) :
    0 ≤ s.base_stock ∧ 0 ≤ s.truck_intransit ∧ 0 ≤ s.store_stock ∧
    0 ≤ s.tax_accrued_base ∧ s.offer.nonneg := by
  induction hs with
  | init =>
    refine ⟨hib, le_refl _, his, le_refl _, le_refl _, le_refl _, ?_⟩
    intro x hx
    exact absurd hx (List.not_mem_nil x)
  | step tv b sp bd hv hsp _ ih =>
    obtain ⟨i1, i2, i3, i4, i5⟩ := ih
    obtain ⟨k1, k2, k3, -⟩ := simulate_day_stocks_nonneg _ cfg tv b sp bd i1 i2 i3 hv
    exact ⟨k1, k2, k3,
      (simulate_day_totals_step _ cfg tv b sp bd hop htax hcr i1 i2 i3 i4 i5 hv hsp).2.2.2,
      simulate_day_offer_nonneg _ cfg tv b sp bd hop i5⟩

/-- C16: for a configuration with `base_price > 0` and `base_offer_price`, `tax_rate`,
`credit_rate_monthly`, `credit_limit` and the initial stocks all ≥ 0, and a state
reachable from `initialise cfg` through `simulate_day` calls with `transfer_volume ≥ 0`
and `selling_price ≥ 0`, one further such call does not decrease `total_revenue`,
`total_tax_paid` or `total_expenses`, and `tax_accrued_base` is ≥ 0 before and after. -/
theorem totals_monotone (cfg : Config) (_hbp : 0 < cfg.base_price)
    (hop : 0 ≤ cfg.base_offer_price) (htax : 0 ≤ cfg.tax_rate)
    (hcr : 0 ≤ cfg.credit_rate_monthly) (_hcl : 0 ≤ cfg.credit_limit)
    (hib : 0 ≤ cfg.initial_base_stock) (his : 0 ≤ cfg.initial_store_stock)
    (s : ModelState) (hs : ReachableNonneg cfg s)
    (transfer_volume : Int) (buy_offer : Bool) (selling_price base_daily_demand : ℚ)
    (hv : 0 ≤ transfer_volume) (hsp : 0 ≤ selling_price) :
    s.total_revenue
      ≤ (simulate_day s cfg transfer_volume buy_offer selling_price
          base_daily_demand).1.total_revenue ∧
    s.total_tax_paid
      ≤ (simulate_day s cfg transfer_volume buy_offer selling_price
          base_daily_demand).1.total_tax_paid ∧
    s.total_expenses
      ≤ (simulate_day s cfg transfer_volume buy_offer selling_price
          base_daily_demand).1.total_expenses ∧
    0 ≤ s.tax_accrued_base ∧
    0 ≤ (simulate_day s cfg transfer_volume buy_offer selling_price
          base_daily_demand).1.tax_accrued_base := by
  obtain ⟨i1, i2, i3, i4, i5⟩ := reachable_nonneg_invariant cfg hop htax hcr hib his s hs
  obtain ⟨t1, t2, t3, t4⟩ := simulate_day_totals_step s cfg transfer_volume buy_offer
    selling_price base_daily_demand hop htax hcr i1 i2 i3 i4 i5 hv hsp
  exact ⟨t1, t2, t3, i4, t4⟩

/-- C16 witness: the default configuration, the state after a first day with inputs
`(50, false, 120)`, and a second day with inputs `(0, true, 110)`. -/
theorem totals_monotone_witness :
    ((0 : ℚ) < ({} : Config).base_price ∧ (0 : ℚ) ≤ ({} : Config).base_offer_price ∧
      (0 : ℚ) ≤ ({} : Config).tax_rate ∧ (0 : ℚ) ≤ ({} : Config).credit_rate_monthly ∧
      (0 : ℚ) ≤ ({} : Config).credit_limit ∧ (0 : Int) ≤ ({} : Config).initial_base_stock ∧
      (0 : Int) ≤ ({} : Config).initial_store_stock ∧
      ReachableNonneg {} (simulate_day (initialise {}) {} 50 false 120 20).1) ∧
    (simulate_day (initialise {}) {} 50 false 120 20).1.total_revenue
      ≤ (simulate_day (simulate_day (initialise {}) {} 50 false 120 20).1 {} 0 true 110
          20).1.total_revenue ∧
    (simulate_day (initialise {}) {} 50 false 120 20).1.total_tax_paid
      ≤ (simulate_day (simulate_day (initialise {}) {} 50 false 120 20).1 {} 0 true 110
          20).1.total_tax_paid ∧
    (simulate_day (initialise {}) {} 50 false 120 20).1.total_expenses
      ≤ (simulate_day (simulate_day (initialise {}) {} 50 false 120 20).1 {} 0 true 110
          20).1.total_expenses := by
  have h1 : (0 : ℚ) < ({} : Config).base_price := by
    show (0 : ℚ) < 100
    norm_num
  have h2 : (0 : ℚ) ≤ ({} : Config).base_offer_price := by
    show (0 : ℚ) ≤ 80
    norm_num
  have h3 : (0 : ℚ) ≤ ({} : Config).tax_rate := by
    show (0 : ℚ) ≤ 18 / 100
    norm_num
  have h4 : (0 : ℚ) ≤ ({} : Config).credit_rate_monthly := by
    show (0 : ℚ) ≤ 2 / 100
    norm_num
  have h5 : (0 : ℚ) ≤ ({} : Config).credit_limit := by
    show (0 : ℚ) ≤ 5000
    norm_num
  have h6 : (0 : Int) ≤ ({} : Config).initial_base_stock := by decide
  have h7 : (0 : Int) ≤ ({} : Config).initial_store_stock := by decide
  have hr : ReachableNonneg {} (simulate_day (initialise {}) {} 50 false 120 20).1 :=
    ReachableNonneg.step 50 false 120 20 (by decide) (by norm_num) ReachableNonneg.init
  have h := totals_monotone {} h1 h2 h3 h4 h5 h6 h7 _ hr 0 true 110 20 (le_refl _)
    (by norm_num)
  exact ⟨⟨h1, h2, h3, h4, h5, h6, h7, hr⟩, h.1, h.2.1, h.2.2.1⟩

/-! ### C17: the accounting identity -/

/-- One call preserves `bank_account - credit_used - total_revenue + total_expenses`. -/
theorem simulate_day_accounting (s : ModelState) (cfg : Config) (tv : Int) (b : Bool)
    (sp bd : ℚ) :
    (simulate_day s cfg tv b sp bd).1.bank_account
        - (simulate_day s cfg tv b sp bd).1.credit_used
        - (simulate_day s cfg tv b sp bd).1.total_revenue
        + (simulate_day s cfg tv b sp bd).1.total_expenses
      = s.bank_account - s.credit_used - s.total_revenue + s.total_expenses := by
  obtain ⟨m1, m2, m3⟩ := simulate_day_money s cfg tv b sp bd
  obtain ⟨e1, e2, e3⟩ := before_credit_money s cfg tv b sp bd
  obtain ⟨c1, c2, -, -⟩ := credit_step_money (before_credit s cfg tv b sp bd) cfg
  have hcu := simulate_day_credit_used s cfg tv b sp bd
  rw [before_credit_credit_used] at c1 c2
  rw [m1, m2, m3, hcu, c1, c2, e1, e2, e3]
  ring

/-- C17: `simulate_day` preserves the quantity
`bank_account - credit_used - total_revenue + total_expenses` for every state and input;
consequently every state reachable from `initialise cfg` satisfies
`bank_account = cfg.initial_balance + total_revenue - total_expenses + credit_used`. -/
theorem accounting_identity (cfg : Config) :
    (∀ (s : ModelState) (transfer_volume : Int) (buy_offer : Bool)
        (selling_price base_daily_demand : ℚ),
      (simulate_day s cfg transfer_volume buy_offer selling_price
            base_daily_demand).1.bank_account
          - (simulate_day s cfg transfer_volume buy_offer selling_price
              base_daily_demand).1.credit_used
          - (simulate_day s cfg transfer_volume buy_offer selling_price
              base_daily_demand).1.total_revenue
          + (simulate_day s cfg transfer_volume buy_offer selling_price
              base_daily_demand).1.total_expenses
        = s.bank_account - s.credit_used - s.total_revenue + s.total_expenses) ∧
    (∀ s : ModelState, Reachable cfg s →
      s.bank_account
        = cfg.initial_balance + s.total_revenue - s.total_expenses + s.credit_used) := by
  refine ⟨fun s tv b sp bd => simulate_day_accounting s cfg tv b sp bd, ?_⟩
  intro s hs
  induction hs with
  | init =>
    show cfg.initial_balance = cfg.initial_balance + 0 - 0 + 0
    ring
  | @step s0 tv b sp bd _ ih =>
    have h := simulate_day_accounting s0 cfg tv b sp bd
    linarith

/-- C17 witness: the reachable state at the end of day 30 (a batch bought on day 1 and
fully paid) balances against the initial 10000. -/
theorem accounting_identity_witness :
    Reachable {} state_day30_paid ∧
    state_day30_paid.bank_account
      = 10000 + state_day30_paid.total_revenue - state_day30_paid.total_expenses
        + state_day30_paid.credit_used :=
  ⟨state_day30_paid_reachable,
    (accounting_identity {}).2 state_day30_paid state_day30_paid_reachable⟩

/-! ### C18: a purchase adds no goods -/

theorem buy_step_skills (s : ModelState) (cfg : Config) (b : Bool) :
    (buy_step s cfg b).sales_skill = s.sales_skill ∧
    (buy_step s cfg b).sales_motivation = s.sales_motivation := by
  unfold buy_step
  cases b <;> simp

theorem service_step_skills (s : ModelState) :
    (service_step s).sales_skill = s.sales_skill ∧
    (service_step s).sales_motivation = s.sales_motivation := by
  unfold service_step
  split_ifs <;> simp

theorem tax_step_skills (s : ModelState) (cfg : Config) (r : ℚ) :
    (tax_step s cfg r).sales_skill = s.sales_skill ∧
    (tax_step s cfg r).sales_motivation = s.sales_motivation := by
  unfold tax_step
  by_cases hr : r > 0 <;> by_cases hd : is_day30 s.day = true <;> simp [hr, hd]

theorem credit_step_skills (s : ModelState) (cfg : Config) :
    (credit_step s cfg).sales_skill = s.sales_skill ∧
    (credit_step s cfg).sales_motivation = s.sales_motivation := by
  unfold credit_step
  split_ifs <;> simp

theorem interest_step_skills (s : ModelState) (cfg : Config) :
    (interest_step s cfg).sales_skill = s.sales_skill ∧
    (interest_step s cfg).sales_motivation = s.sales_motivation := by
  unfold interest_step
  split_ifs <;> simp

theorem before_sales_skills (s : ModelState) (cfg : Config) (tv : Int) (b : Bool) :
    (before_sales s cfg tv b).sales_skill = s.sales_skill ∧
    (before_sales s cfg tv b).sales_motivation = s.sales_motivation := by
  unfold before_sales
  rw [(buy_step_skills _ cfg b).1, (buy_step_skills _ cfg b).2]
  exact ⟨rfl, rfl⟩

/-- No block of `simulate_day` writes `sales_skill` or `sales_motivation`. -/
theorem simulate_day_skills (s : ModelState) (cfg : Config) (tv : Int) (b : Bool) (sp bd : ℚ) :
    (simulate_day s cfg tv b sp bd).1.sales_skill = s.sales_skill ∧
    (simulate_day s cfg tv b sp bd).1.sales_motivation = s.sales_motivation := by
  simp only [simulate_day, before_credit]
  rw [(interest_step_skills _ cfg).1, (interest_step_skills _ cfg).2,
    (credit_step_skills _ cfg).1, (credit_step_skills _ cfg).2,
    (tax_step_skills _ cfg _).1, (tax_step_skills _ cfg _).2,
    (service_step_skills _).1, (service_step_skills _).2]
  exact before_sales_skills s cfg tv b

/-- The units sold do not depend on whether a batch is bought. -/
theorem sales_qty_of_buy_irrelevant (s : ModelState) (cfg : Config) (tv : Int) (sp bd : ℚ) :
    sales_qty_of (before_sales s cfg tv true) cfg sp bd
      = sales_qty_of (before_sales s cfg tv false) cfg sp bd := by
  unfold sales_qty_of
  rw [(before_sales_skills s cfg tv true).1, (before_sales_skills s cfg tv true).2,
    (before_sales_skills s cfg tv false).1, (before_sales_skills s cfg tv false).2,
    (before_sales_stocks s cfg tv true).2.2.2, (before_sales_stocks s cfg tv false).2.2.2]

/-- The day's revenue does not depend on whether a batch is bought. -/
theorem revenue_of_buy_irrelevant (s : ModelState) (cfg : Config) (tv : Int) (sp bd : ℚ) :
    revenue_of (before_sales s cfg tv true) cfg sp bd
      = revenue_of (before_sales s cfg tv false) cfg sp bd := by
  unfold revenue_of
  rw [sales_qty_of_buy_irrelevant]

/-- C18: for every state, configuration, `transfer_volume` and `selling_price`, the
values of `base_stock`, `truck_intransit`, `store_stock`, `daily_sales_qty` and
`daily_revenue` after `simulate_day` are the same for `buy_offer = true` as for
`buy_offer = false`; so are `day`, `tax_accrued_base`, `total_tax_paid`, `total_revenue`,
`sales_skill` and `sales_motivation`: the purchase can only change the offer record,
`bank_account`, `total_expenses` and `credit_used`. -/
theorem purchase_adds_no_goods (s : ModelState) (cfg : Config) (transfer_volume : Int)
    (selling_price base_daily_demand : ℚ) :
    ((simulate_day s cfg transfer_volume true selling_price base_daily_demand).1.base_stock
        = (simulate_day s cfg transfer_volume false selling_price
            base_daily_demand).1.base_stock ∧
      (simulate_day s cfg transfer_volume true selling_price
          base_daily_demand).1.truck_intransit
        = (simulate_day s cfg transfer_volume false selling_price
            base_daily_demand).1.truck_intransit ∧
      (simulate_day s cfg transfer_volume true selling_price base_daily_demand).1.store_stock
        = (simulate_day s cfg transfer_volume false selling_price
            base_daily_demand).1.store_stock ∧
      (simulate_day s cfg transfer_volume true selling_price
          base_daily_demand).2.daily_sales_qty
        = (simulate_day s cfg transfer_volume false selling_price
            base_daily_demand).2.daily_sales_qty ∧
      (simulate_day s cfg transfer_volume true selling_price
          base_daily_demand).2.daily_revenue
        = (simulate_day s cfg transfer_volume false selling_price
            base_daily_demand).2.daily_revenue) ∧
    ((simulate_day s cfg transfer_volume true selling_price base_daily_demand).1.day
        = (simulate_day s cfg transfer_volume false selling_price base_daily_demand).1.day ∧
      (simulate_day s cfg transfer_volume true selling_price
          base_daily_demand).1.tax_accrued_base
        = (simulate_day s cfg transfer_volume false selling_price
            base_daily_demand).1.tax_accrued_base ∧
      (simulate_day s cfg transfer_volume true selling_price
          base_daily_demand).1.total_tax_paid
        = (simulate_day s cfg transfer_volume false selling_price
            base_daily_demand).1.total_tax_paid ∧
      (simulate_day s cfg transfer_volume true selling_price
          base_daily_demand).1.total_revenue
        = (simulate_day s cfg transfer_volume false selling_price
            base_daily_demand).1.total_revenue ∧
      (simulate_day s cfg transfer_volume true selling_price
          base_daily_demand).1.sales_skill
        = (simulate_day s cfg transfer_volume false selling_price
            base_daily_demand).1.sales_skill ∧
      (simulate_day s cfg transfer_volume true selling_price
          base_daily_demand).1.sales_motivation
        = (simulate_day s cfg transfer_volume false selling_price
            base_daily_demand).1.sales_motivation) := by
  have hq := sales_qty_of_buy_irrelevant s cfg transfer_volume selling_price base_daily_demand
  have hr := revenue_of_buy_irrelevant s cfg transfer_volume selling_price base_daily_demand
  obtain ⟨a1, a2, a3, a4⟩ := simulate_day_stocks s cfg transfer_volume true selling_price
    base_daily_demand
  obtain ⟨b1, b2, b3, b4⟩ := simulate_day_stocks s cfg transfer_volume false selling_price
    base_daily_demand
  obtain ⟨-, p2, p3, p4⟩ := before_sales_stocks s cfg transfer_volume true
  obtain ⟨-, q2, q3, q4⟩ := before_sales_stocks s cfg transfer_volume false
  obtain ⟨x1, x2⟩ := simulate_day_tax_fields s cfg transfer_volume true selling_price
    base_daily_demand
  obtain ⟨y1, y2⟩ := simulate_day_tax_fields s cfg transfer_volume false selling_price
    base_daily_demand
  obtain ⟨k1, k2⟩ := simulate_day_skills s cfg transfer_volume true selling_price
    base_daily_demand
  obtain ⟨l1, l2⟩ := simulate_day_skills s cfg transfer_volume false selling_price
    base_daily_demand
  refine ⟨⟨?_, ?_, ?_, ?_, ?_⟩, ?_, ?_, ?_, ?_, ?_, ?_⟩
  · rw [a2, b2, p2, q2]
  · rw [a3, b3, p3, q3]
  · rw [a4, b4, p4, q4, hq]
  · rw [simulate_day_result, simulate_day_result]
    exact hq
  · rw [simulate_day_result, simulate_day_result]
    exact hr
  · rw [a1, b1]
  · rw [x1, y1, hr]
  · rw [x2, y2, hr]
  · rw [(simulate_day_money s cfg transfer_volume true selling_price base_daily_demand).2.2,
      (simulate_day_money s cfg transfer_volume false selling_price base_daily_demand).2.2,
      (before_credit_money s cfg transfer_volume true selling_price base_daily_demand).2.2,
      (before_credit_money s cfg transfer_volume false selling_price base_daily_demand).2.2,
      hr]
  · rw [k1, l1]
  · rw [k2, l2]

/-! ### C19: a purchase on a multiple of 30 pays both installments -/

/-- The second installment of a freshly created offer: `100 * price * 0.5`. -/
theorem created_offer_second_payment (o : Offer) (p : ℚ) :
    (o.create 100 p [1 / 2, 1 / 2]).advance_stage.next_payment_amount = 100 * p * (1 / 2) ∧
    (o.create 100 p [1 / 2, 1 / 2]).advance_stage.is_completed = false := by
  rw [created_offer]
  constructor
  · simp [Offer.next_payment_amount, vec_at]
  · simp [Offer.is_completed]

/-- C19: when the day number `state.day + 1` is a multiple of 30 and `buy_offer = true`,
both installments of the newly created offer are charged within the one `simulate_day`
call: the offer ends the call completed with `paid_stage_index = 2`; block 3 deducts
`100 * cfg.base_offer_price * 0.5` at purchase and block 5 deducts the same amount again,
so that after block 5 the offer payments taken from `bank_account` and added to
`total_expenses` total `100 * cfg.base_offer_price`. -/
theorem purchase_on_day30_pays_twice (s : ModelState) (cfg : Config) (transfer_volume : Int)
    (selling_price base_daily_demand : ℚ) (hd : Int.tmod (s.day + 1) 30 = 0) :
    ((simulate_day s cfg transfer_volume true selling_price base_daily_demand).1.offer
        = { volume := 100, price_per_unit := cfg.base_offer_price, stages := [1 / 2, 1 / 2],
            paid_stage_index := 2 } ∧
      (simulate_day s cfg transfer_volume true selling_price
          base_daily_demand).1.offer.is_completed = true) ∧
    ((before_sales s cfg transfer_volume true).bank_account
        = s.bank_account - 100 * cfg.base_offer_price * (1 / 2) ∧
      (before_sales s cfg transfer_volume true).total_expenses
        = s.total_expenses + 100 * cfg.base_offer_price * (1 / 2)) ∧
    ((service_step (sales_step (before_sales s cfg transfer_volume true) cfg selling_price
          base_daily_demand)).bank_account
        = (sales_step (before_sales s cfg transfer_volume true) cfg selling_price
            base_daily_demand).bank_account - 100 * cfg.base_offer_price * (1 / 2) ∧
      (service_step (sales_step (before_sales s cfg transfer_volume true) cfg selling_price
          base_daily_demand)).total_expenses
        = (sales_step (before_sales s cfg transfer_volume true) cfg selling_price
            base_daily_demand).total_expenses + 100 * cfg.base_offer_price * (1 / 2)) ∧
    ((service_step (sales_step (before_sales s cfg transfer_volume true) cfg selling_price
          base_daily_demand)).bank_account
        = s.bank_account
          + revenue_of (before_sales s cfg transfer_volume true) cfg selling_price
              base_daily_demand
          - 100 * cfg.base_offer_price ∧
      (service_step (sales_step (before_sales s cfg transfer_volume true) cfg selling_price
          base_daily_demand)).total_expenses
        = s.total_expenses + 100 * cfg.base_offer_price) := by
  have h30 : is_day30 (s.day + 1) = true := (is_day30_true_iff _).2 hd
  obtain ⟨b1, b2, -⟩ := before_sales_money s cfg transfer_volume true
  simp only [if_true] at b1 b2
  obtain ⟨v1, v2, -⟩ := service_step_money
    (sales_step (before_sales s cfg transfer_volume true) cfg selling_price base_daily_demand)
  have hday : (sales_step (before_sales s cfg transfer_volume true) cfg selling_price
      base_daily_demand).day = s.day + 1 := by
    rw [(sales_step_stocks _ cfg selling_price base_daily_demand).1,
      (before_sales_stocks s cfg transfer_volume true).1]
  have hoff : (sales_step (before_sales s cfg transfer_volume true) cfg selling_price
      base_daily_demand).offer
      = (s.offer.create 100 cfg.base_offer_price [1 / 2, 1 / 2]).advance_stage := by
    show (before_sales s cfg transfer_volume true).offer = _
    rw [before_sales_offer]
    rfl
  obtain ⟨hpay, hinc⟩ := created_offer_second_payment s.offer cfg.base_offer_price
  rw [hday, hoff, hinc, h30, hpay] at v1 v2
  simp only [Bool.not_false, Bool.and_self, if_true] at v1 v2
  have hbank : (sales_step (before_sales s cfg transfer_volume true) cfg selling_price
      base_daily_demand).bank_account
      = (before_sales s cfg transfer_volume true).bank_account
        + revenue_of (before_sales s cfg transfer_volume true) cfg selling_price
            base_daily_demand := rfl
  have hexp : (sales_step (before_sales s cfg transfer_volume true) cfg selling_price
      base_daily_demand).total_expenses
      = (before_sales s cfg transfer_volume true).total_expenses := rfl
  refine ⟨⟨?_, ?_⟩, ⟨b1, b2⟩, ⟨v1, v2⟩, ?_, ?_⟩
  · rw [simulate_day_offer_buy, h30]
    rfl
  · rw [simulate_day_offer_buy, h30]
    simp [Offer.is_completed]
  · rw [v1, hbank, b1]
    ring
  · rw [v2, hexp, b2]
    ring

/-- C19 witness: a purchase on day 30, entered from the reachable state after 29 idle
days, at the default offer price 80: the offer ends completed and the two installments
add 8000 to `total_expenses` by the end of block 5. -/
theorem purchase_on_day30_pays_twice_witness :
    Int.tmod (state_day29.day + 1) 30 = 0 ∧
    (simulate_day state_day29 {} 0 true 100 20).1.offer
      = { volume := 100, price_per_unit := 80, stages := [1 / 2, 1 / 2],
          paid_stage_index := 2 } ∧
    (service_step (sales_step (before_sales state_day29 {} 0 true) {} 100 20)).total_expenses
      = state_day29.total_expenses + 8000 := by
  have hd : Int.tmod (state_day29.day + 1) 30 = 0 := by
    rw [state_day29_day]; decide
  obtain ⟨⟨h1, -⟩, -, -, -, h4⟩ := purchase_on_day30_pays_twice state_day29 {} 0 100 20 hd
  have hp : ({} : Config).base_offer_price = 80 := rfl
  rw [hp] at h1 h4
  refine ⟨hd, h1, ?_⟩
  rw [h4]
  norm_num

/-! ### C20: the transit buffer -/

/-- The delivered amount `floor(n * 0.9)` is the integer quotient `9 n / 10`. -/
theorem delivered_of_eq_div (n : Int) : delivered_of n = 9 * n / 10 := by
  unfold delivered_of
  rw [Int.floor_eq_iff]
  have h1 : 10 * (9 * n / 10) ≤ 9 * n := by omega
  have h2 : 9 * n < 10 * (9 * n / 10) + 10 := by omega
  have q1 : (10 : ℚ) * ((9 * n / 10 : Int) : ℚ) ≤ 9 * (n : ℚ) := by exact_mod_cast h1
  have q2 : 9 * (n : ℚ) < 10 * ((9 * n / 10 : Int) : ℚ) + 10 := by exact_mod_cast h2
  constructor
  · linarith
  · linarith

/-- What stays on the truck, `n - floor(9 n / 10)`, is `ceil(n / 10)`. -/
theorem left_in_transit_eq_ceil (n : Int) : n - 9 * n / 10 = ⌈(n : ℚ) / 10⌉ := by
  symm
  rw [Int.ceil_eq_iff]
  have h1 : 10 * (9 * n / 10) ≤ 9 * n := by omega
  have h2 : 9 * n < 10 * (9 * n / 10) + 10 := by omega
  have q1 : (10 : ℚ) * ((9 * n / 10 : Int) : ℚ) ≤ 9 * (n : ℚ) := by exact_mod_cast h1
  have q2 : 9 * (n : ℚ) < 10 * ((9 * n / 10 : Int) : ℚ) + 10 := by exact_mod_cast h2
  push_cast
  constructor
  · linarith
  · linarith

/-- The truck after a whole `simulate_day`, with `n` the units in transit after loading. -/
theorem simulate_day_truck (s : ModelState) (cfg : Config) (tv : Int) (b : Bool) (sp bd : ℚ) :
    (simulate_day s cfg tv b sp bd).1.truck_intransit
      = s.truck_intransit + min tv s.base_stock
        - 9 * (s.truck_intransit + min tv s.base_stock) / 10 := by
  rw [(simulate_day_stocks s cfg tv b sp bd).2.2.1, (before_sales_stocks s cfg tv b).2.2.1,
    delivered_of_eq_div]

/-- With one unit on the truck and no new load, every day of the driver loop leaves one
unit on the truck and the warehouse untouched. -/
theorem run_days_truck_one (cfg : Config) (inputs : List DayInput) :
    ∀ s : ModelState, s.truck_intransit = 1 →
      (∀ i ∈ inputs, min i.transfer_volume s.base_stock = 0) →
      (run_days cfg s inputs).truck_intransit = 1 ∧
      (run_days cfg s inputs).base_stock = s.base_stock := by
  induction inputs with
  | nil =>
    intro s h1 _
    rw [run_days_nil]
    exact ⟨h1, rfl⟩
  | cons i rest ih =>
    intro s h1 hload
    have hi : min i.transfer_volume s.base_stock = 0 := hload i (List.mem_cons_self i rest)
    have htruck : (simulate_day s cfg i.transfer_volume i.buy_offer i.selling_price
        20).1.truck_intransit = 1 := by
      rw [simulate_day_truck, hi, h1]
      decide
    have hbase : (simulate_day s cfg i.transfer_volume i.buy_offer i.selling_price
        20).1.base_stock = s.base_stock := by
      rw [(simulate_day_stocks s cfg _ _ _ _).2.1, (before_sales_stocks s cfg _ _).2.1, hi]
      omega
    rw [run_days_cons]
    obtain ⟨r1, r2⟩ := ih _ htruck (by
      intro j hj
      rw [hbase]
      exact hload j (List.mem_cons_of_mem i hj))
    exact ⟨r1, by rw [r2, hbase]⟩

/-- C20: from a state with `truck_intransit ≥ 0` and `base_stock ≥ 0`, with
`transfer_volume ≥ 0` and `n = truck_intransit + min(transfer_volume, base_stock)` the
units in transit after loading, `simulate_day` delivers `floor(9n/10)` units to the
store and leaves `truck_intransit = n - floor(9n/10) = ceil(n/10)`; so `n ≥ 1` implies
`truck_intransit ≥ 1` after the call. A state with `truck_intransit = 1` and no new load
delivers nothing (`floor(0.9) = 0`) and still has `truck_intransit = 1` after any number
of further days of the driver loop. -/
theorem transit_never_empties (s : ModelState) (cfg : Config) (transfer_volume : Int)
    (buy_offer : Bool) (selling_price base_daily_demand : ℚ)
    (_ht : 0 ≤ s.truck_intransit) (_hb : 0 ≤ s.base_stock) (_hv : 0 ≤ transfer_volume) :
    (delivered_of (s.truck_intransit + min transfer_volume s.base_stock)
        = 9 * (s.truck_intransit + min transfer_volume s.base_stock) / 10 ∧
      (deliver_step (load_step s transfer_volume)).store_stock
        = s.store_stock + 9 * (s.truck_intransit + min transfer_volume s.base_stock) / 10) ∧
    ((simulate_day s cfg transfer_volume buy_offer selling_price
          base_daily_demand).1.truck_intransit
        = s.truck_intransit + min transfer_volume s.base_stock
          - 9 * (s.truck_intransit + min transfer_volume s.base_stock) / 10 ∧
      (simulate_day s cfg transfer_volume buy_offer selling_price
          base_daily_demand).1.truck_intransit
        = ⌈((s.truck_intransit + min transfer_volume s.base_stock : Int) : ℚ) / 10⌉) ∧
    (1 ≤ s.truck_intransit + min transfer_volume s.base_stock →
      1 ≤ (simulate_day s cfg transfer_volume buy_offer selling_price
          base_daily_demand).1.truck_intransit) ∧
    (s.truck_intransit = 1 →
      delivered_of 1 = 0 ∧
      ∀ days : List DayInput, (∀ i ∈ days, min i.transfer_volume s.base_stock = 0) →
        (run_days cfg s days).truck_intransit = 1) := by
  have htr := simulate_day_truck s cfg transfer_volume buy_offer selling_price
    base_daily_demand
  refine ⟨⟨delivered_of_eq_div _, ?_⟩, ⟨htr, ?_⟩, ?_, ?_⟩
  · rw [deliver_step_store, load_step_truck, load_step_store, delivered_of_eq_div]
  · rw [htr]
    exact left_in_transit_eq_ceil _
  · intro hn
    rw [htr]
    omega
  · intro h1
    refine ⟨?_, ?_⟩
    · rw [delivered_of_eq_div]
      decide
    · intro days hdays
      exact (run_days_truck_one cfg days s h1 hdays).1

/-- C20 witness: one unit on the truck and an empty warehouse. A request for 5 units
loads nothing, nothing is delivered, and the unit is still on the truck after the day
and after three further idle days. -/
theorem transit_never_empties_witness :
    ((0 : Int) ≤ one_in_transit_state.truck_intransit ∧
      (0 : Int) ≤ one_in_transit_state.base_stock ∧ (0 : Int) ≤ 5 ∧
      one_in_transit_state.truck_intransit = 1) ∧
    (simulate_day one_in_transit_state {} 5 false 100 20).1.truck_intransit = 1 ∧
    (deliver_step (load_step one_in_transit_state 5)).store_stock
      = one_in_transit_state.store_stock ∧
    (run_days {} one_in_transit_state [idle_day, idle_day, idle_day]).truck_intransit = 1 := by
  have ht : (0 : Int) ≤ one_in_transit_state.truck_intransit := by decide
  have hb : (0 : Int) ≤ one_in_transit_state.base_stock := by decide
  have h1 : one_in_transit_state.truck_intransit = 1 := rfl
  have h0 : one_in_transit_state.base_stock = 0 := rfl
  obtain ⟨⟨-, hstore⟩, ⟨htruck, -⟩, -, hrun⟩ :=
    transit_never_empties one_in_transit_state {} 5 false 100 20 ht hb (by decide)
  rw [h1, h0] at htruck hstore
  refine ⟨⟨ht, hb, by decide, h1⟩, ?_, ?_, ?_⟩
  · rw [htruck]
    decide
  · rw [hstore]
    decide
  · apply (hrun h1).2
    intro i hi
    rw [h0]
    simp only [List.mem_cons, List.mem_singleton, List.not_mem_nil, or_false, or_self] at hi
    rw [hi]
    decide

/-! ### C2 in binary64: the credit draw can end one ulp above the limit -/

/-- The binary exponent of a positive rational lying in `[2^e, 2^(e+1))`. -/
theorem int_log_two_eq (x : ℚ) (e : Int) (h1 : (2 : ℚ) ^ e ≤ x) (h2 : x < (2 : ℚ) ^ (e + 1)) :
    Int.log 2 x = e := by
  have hpos : 0 < x := lt_of_lt_of_le (zpow_pos (by norm_num) e) h1
  have hle : e ≤ Int.log 2 x :=
    (Int.zpow_le_iff_le_log (by norm_num) hpos).1 (by exact_mod_cast h1)
  have hlt : Int.log 2 x < e + 1 :=
    (Int.lt_zpow_iff_log_lt (by norm_num) hpos).1 (by exact_mod_cast h2)
  omega

/-- The value stored for a positive exact result in the binade `[2^e, 2^(e+1))`. -/
theorem round_f64_of_binade (x : ℚ) (e : Int) (h1 : (2 : ℚ) ^ e ≤ x)
    (h2 : x < (2 : ℚ) ^ (e + 1)) :
    round_f64 x = (round_half_even (x / 2 ^ (e - 52)) : ℚ) * 2 ^ (e - 52) := by
  have hpos : 0 < x := lt_of_lt_of_le (zpow_pos (by norm_num) e) h1
  unfold round_f64
  rw [if_neg (ne_of_gt hpos), abs_of_pos hpos, int_log_two_eq x e h1 h2]

/-- The available credit `0.3 - 0.03` is stored as `4863887597560136 / 2^54` (printed
`0.27`): the exact difference `4863887597560135.5 / 2^54` is a tie, rounded to even. -/
theorem available_small_limit :
    round_f64 (5404319552844595 / 2 ^ 54 - 1080863910568919 / 2 ^ 55)
      = 4863887597560136 / 2 ^ 54 := by
  rw [round_f64_of_binade _ (-2) (by norm_num) (by norm_num)]
  have hr : round_half_even
      ((5404319552844595 / 2 ^ 54 - 1080863910568919 / 2 ^ 55) / 2 ^ ((-2 : Int) - 52))
      = 4863887597560136 := by
    norm_num [round_half_even]
  rw [hr]
  norm_num

/-- The sum `0.03 + 0.27` is stored as `5404319552844596 / 2^54` (printed
`0.30000000000000004`): the exact sum `5404319552844595.5 / 2^54` is again a tie. -/
theorem drawn_small_limit :
    round_f64 (1080863910568919 / 2 ^ 55 + 4863887597560136 / 2 ^ 54)
      = 5404319552844596 / 2 ^ 54 := by
  rw [round_f64_of_binade _ (-2) (by norm_num) (by norm_num)]
  have hr : round_half_even
      ((1080863910568919 / 2 ^ 55 + 4863887597560136 / 2 ^ 54) / 2 ^ ((-2 : Int) - 52))
      = 5404319552844596 := by
    norm_num [round_half_even]
  rw [hr]
  norm_num

/-- Day 1 of `cfg_small_limit`: nothing is sold, the shortfall 0.03 is drawn in full
(`0 + 0.03` and `-0.03 + 0.03` are exact), the balance ends at 0. -/
theorem small_limit_day1_eq :
    small_limit_day1
      = { initialise cfg_small_limit with
          day := 1, bank_account := 0, credit_used := 1080863910568919 / 2 ^ 55 } := by
  norm_num [small_limit_day1, simulate_day, before_credit, before_sales, load_step,
    deliver_step, buy_step, sales_step, service_step, tax_step, credit_step, interest_step,
    initialise, cfg_small_limit, sales_qty_of, revenue_of, calc_demand, cpp_round,
    delivered_of, is_day30_eq, Offer.is_completed, Offer.new]

/-- Day 2 of `cfg_small_limit` at line 160: balance `0 - 4000`, credit used 0.03. -/
theorem small_limit_day2_at_draw_eq :
    small_limit_day2_at_draw.bank_account = -4000 ∧
    small_limit_day2_at_draw.credit_used = 1080863910568919 / 2 ^ 55 := by
  unfold small_limit_day2_at_draw
  rw [small_limit_day1_eq]
  norm_num [before_credit, before_sales, load_step, deliver_step, buy_step, sales_step,
    service_step, tax_step, initialise, cfg_small_limit, sales_qty_of, revenue_of,
    calc_demand, cpp_round, delivered_of, is_day30_eq, Offer.is_completed, Offer.new,
    Offer.create, Offer.next_payment_amount, Offer.advance_stage, vec_at]

/-- The credit used after the binary64 credit draw, in terms of the state at line 160. -/
theorem credit_step_f64_credit_used (s : ModelState) (cfg : Config) (h : s.bank_account < 0) :
    (credit_step_f64 s cfg).credit_used
      = round_f64 (s.credit_used
          + min (-s.bank_account) (max 0 (round_f64 (cfg.credit_limit - s.credit_used)))) := by
  unfold credit_step_f64
  rw [if_pos h]

theorem round_half_even_nonneg (y : ℚ) (h : 0 ≤ y) : 0 ≤ round_half_even y := by
  have hf : (0 : Int) ≤ ⌊y⌋ := Int.floor_nonneg.mpr h
  unfold round_half_even
  split_ifs <;> omega

theorem round_f64_nonneg (x : ℚ) (h : 0 ≤ x) : 0 ≤ round_f64 x := by
  unfold round_f64
  split_ifs with h0
  · exact le_refl _
  · have hp : (0 : ℚ) < 2 ^ (Int.log 2 |x| - 52) := zpow_pos (by norm_num) _
    have hy : 0 ≤ x / 2 ^ (Int.log 2 |x| - 52) := div_nonneg h (le_of_lt hp)
    have hr : (0 : ℚ) ≤ (round_half_even (x / 2 ^ (Int.log 2 |x| - 52)) : ℚ) := by
      exact_mod_cast round_half_even_nonneg _ hy
    exact mul_nonneg hr (le_of_lt hp)

/-- The lower bound of C2 survives rounding: the binary64 credit draw keeps
`credit_used ≥ 0`. -/
theorem credit_step_f64_credit_nonneg (s : ModelState) (cfg : Config)
    (h0 : 0 ≤ s.credit_used) : 0 ≤ (credit_step_f64 s cfg).credit_used := by
  by_cases hb : s.bank_account < 0
  · rw [credit_step_f64_credit_used s cfg hb]
    apply round_f64_nonneg
    have hneed : 0 ≤ -s.bank_account := by linarith
    have hused : 0 ≤ min (-s.bank_account)
        (max 0 (round_f64 (cfg.credit_limit - s.credit_used))) :=
      le_min hneed (le_max_left _ _)
    linarith
  · unfold credit_step_f64
    rw [if_neg hb]
    exact h0

/-- C2 (code defect, evaluated at the failing input): with `credit_limit = 0.3` and
`initial_balance = -0.03`, the state after day 1 is reachable and satisfies
`0 ≤ credit_used ≤ credit_limit` (0.03 drawn). On day 2 a purchase takes the balance to
-4000, and the binary64 credit draw of lines 160-167 stores
`available = 0.3 - 0.03 = 4863887597560136 / 2^54` and
`credit_used = 0.03 + available = 5404319552844596 / 2^54`, one unit in the last place
above `credit_limit = 5404319552844595 / 2^54`; in exact arithmetic the same draw ends
exactly at the limit. -/
theorem credit_used_exceeds_limit_binary64 :
    (Reachable cfg_small_limit small_limit_day1 ∧
      0 ≤ small_limit_day1.credit_used ∧
      small_limit_day1.credit_used ≤ cfg_small_limit.credit_limit) ∧
    (small_limit_day2_at_draw.bank_account = -4000 ∧
      small_limit_day2_at_draw.credit_used = 1080863910568919 / 2 ^ 55) ∧
    (credit_step_f64 small_limit_day2_at_draw cfg_small_limit).credit_used
      = 5404319552844596 / 2 ^ 54 ∧
    cfg_small_limit.credit_limit
      < (credit_step_f64 small_limit_day2_at_draw cfg_small_limit).credit_used ∧
    (credit_step small_limit_day2_at_draw cfg_small_limit).credit_used
      = cfg_small_limit.credit_limit := by
  obtain ⟨hb, hc⟩ := small_limit_day2_at_draw_eq
  have hl : cfg_small_limit.credit_limit = 5404319552844595 / 2 ^ 54 := rfl
  have h1 : small_limit_day1.credit_used = 1080863910568919 / 2 ^ 55 := by
    rw [small_limit_day1_eq]
  have hneg : small_limit_day2_at_draw.bank_account < 0 := by
    rw [hb]; norm_num
  have hcu : (credit_step_f64 small_limit_day2_at_draw cfg_small_limit).credit_used
      = 5404319552844596 / 2 ^ 54 := by
    rw [credit_step_f64_credit_used _ _ hneg, hb, hc, hl, available_small_limit,
      max_eq_right (by norm_num), min_eq_right (by norm_num), drawn_small_limit]
  refine ⟨⟨Reachable.step 0 false 100 20 Reachable.init, ?_, ?_⟩, ⟨hb, hc⟩, hcu, ?_, ?_⟩
  · rw [h1]; norm_num
  · rw [h1, hl]; norm_num
  · rw [hcu, hl]; norm_num
  · rw [(credit_step_money _ _).1, if_pos hneg, hb, hc, hl]
    norm_num

end ShopSim
